import Mathlib

/-!
# Post-install commit step (`chromeos_postinst.cc`)

A shallow embedding of `FirmwareUpdate`, `ChromeosChrootPostinst` and
`RunPostInstall`.

The three functions are straight-line code with early returns: there is no
loop, so every call site of the source is executed at most once in a run.
A run is therefore a function of

* the arguments of the function,
* the `Host`: the process environment read with `getenv`, and the pure helpers
  and constants that the source takes from `inst_util.h`, `CgptManager.h` and
  `unistd.h` (none of them is defined in `chromeos_postinst.cc`, so they are
  parameters),
* the `Answers`: the value that each side-effecting call returns, one field per
  call site of the source, each of them arbitrary.

A run returns the boolean of the source function and the trace of the calls it
made, in program order; each call is recorded with its arguments and with the
value it returned.  Output written with `printf` is part of the trace.
The functions are written statement by statement: `emit calls rest` makes the
calls and goes on with `rest`, `returning b` is `return b;`.
`int` values are modelled as `Int`; the only arithmetic of the source is
`new_part_num - 1`.

The partition attribute store itself (`CgptManager`) is outside the source.
Where a property speaks of the attribute values a run leaves behind, the
trace is replayed with `applyTrace` over a table of `Attributes` on which
every successful set operation overwrites one field of one partition.
-/

namespace Postinst

/-- One call made by the program, with its arguments and the returned value. -/
inductive Call where
  | printf (text : String)
  | fprintf_stderr (text : String)
  | R10FileSystemPatch (dev : String) (ok : Bool)
  | Touch (path : String) (ok : Bool)
  | SetImage (install_dir root_dev install_dev new_k_dev : String) (ok : Bool)
  | sync
  | Initialize (root_dev : String) (result : Int)
  | SetHighestPriority (kern : Int) (result : Int)
  | SetSuccessful (kern : Int) (value : Bool) (result : Int)
  | SetNumTriesLeft (kern : Int) (tries : Int) (result : Int)
  | SetPriority (kern : Int) (priority : Int) (result : Int)
  | MakeDeviceReadOnly (dev : String) (ok : Bool)
  | RemovePackFiles (dir : String) (ok : Bool)
  | access (path : String) (mode : Int) (result : Int)
  | system (command : String) (result : Int)
  | LsbReleaseValue (file key : String) (value : String)
  deriving DecidableEq, Repr

/-- What the source uses without defining it: the process environment, the
pure helpers of `inst_util.h`, and the constants `kCgptSuccess`
(`CgptManager.h`) and `X_OK` (`unistd.h`). -/
structure Host where
  getenv : String → Option String
  GetBlockDevFromPartitionDev : String → String
  GetPartitionFromPartitionDev : String → Int
  MakePartitionDev : String → Int → String
  VersionLess : String → String → Bool
  kCgptSuccess : Int
  X_OK : Int

/-- The value returned at each side-effecting call site of the source (the
line of the call is given with each field). -/
structure Answers where
  /-- line 27, `access(command, X_OK)` -/
  access_updater : Int
  /-- line 34, `system(test_sh_command)` -/
  system_probe : Int
  /-- line 53, `system(command)` -/
  system_updater : Int
  /-- line 115, `R10FileSystemPatch(install_dev)` -/
  R10FileSystemPatch : Bool
  /-- line 122, `Touch(install_dir + "/.nodelta")` -/
  Touch_nodelta : Bool
  /-- line 129, `SetImage(...)` -/
  SetImage : Bool
  /-- line 141, `cgpt_manager.Initialize(root_dev)` -/
  Initialize : Int
  /-- line 147, `cgpt_manager.SetHighestPriority(new_kern_num)` -/
  SetHighestPriority : Int
  /-- line 156, `cgpt_manager.SetSuccessful(new_kern_num, new_kern_successful)` -/
  SetSuccessful : Int
  /-- line 165, `cgpt_manager.SetNumTriesLeft(new_kern_num, numTries)` -/
  SetNumTriesLeft : Int
  /-- line 178, `MakeDeviceReadOnly(install_dev)`, whose result the source ignores -/
  MakeDeviceReadOnly : Bool
  /-- line 192, `RemovePackFiles("/var/lib/ureadahead")` -/
  RemovePackFiles : Bool
  /-- line 201, `Touch("/mnt/stateful_partition/.install_completed")` -/
  Touch_install_completed : Bool
  /-- line 223, `cgpt_manager.SetSuccessful(new_kern_num, false)` of the rollback -/
  rollback_SetSuccessful : Int
  /-- line 232, `cgpt_manager.SetNumTriesLeft(new_kern_num, 0)` of the rollback -/
  rollback_SetNumTriesLeft : Int
  /-- line 241, `cgpt_manager.SetPriority(new_kern_num, 0)` of the rollback -/
  rollback_SetPriority : Int
  /-- line 270, `LsbReleaseValue("/etc/lsb-release", "CHROMEOS_RELEASE_VERSION")` -/
  LsbReleaseValue : String
  /-- line 284, `access(tag_file, 0)` -/
  access_tag_file : Int

/-- The outcome of a run: the returned `bool` and the calls made, in order. -/
structure Run where
  ret : Bool
  trace : List Call
  deriving DecidableEq, Repr

/-- The statement `return b;`. -/
def returning (b : Bool) : Run := ⟨b, []⟩

/-- Make `calls`, in order, then go on with `rest`. -/
def emit (calls : List Call) (rest : Run) : Run := ⟨rest.ret, calls ++ rest.trace⟩

/-- The text `printf` writes for a `bool` passed to `%d`. -/
def fmtBool (b : Bool) : String := if b then "1" else "0"

/-- The text `printf` writes for an `int` passed to `%d` or `%i`. -/
def fmtInt (n : Int) : String := toString n

/-- Source lines 22-68. -/
def FirmwareUpdate (h : Host) (a : Answers) (install_dir : String) (is_update : Bool) : Run :=
  let command := install_dir ++ "/usr/sbin/chromeos-firmwareupdate"
  emit [Call.access command h.X_OK a.access_updater] <|
  if a.access_updater ≠ 0 then
    emit [Call.printf "No firmware updates available.\n"] <|
    returning true
  else
  -- Binary compatibility test.
  let test_sh_command := install_dir ++ "/bin/sh -c exit"
  emit [Call.system test_sh_command a.system_probe] <|
  if a.system_probe ≠ 0 then
    emit [Call.printf ("Detected incompatible system binary. " ++
      "Firmware updates are disabled for system architecture transition " ++
      "(ex, 32->64 bits) auto updates.\n")] <|
    returning true
  else
  let mode := if is_update then "autoupdate" else "recovery"
  let command := (command ++ " --mode=") ++ mode
  emit [Call.printf ("Starting firmware updater (" ++ command ++ ")\n")] <|
  let result := a.system_updater
  emit [Call.system command result] <|
  emit [Call.printf (
    if result = 0 then "Firmware update completed.\n"
    else if result = 3 then
      "Firmware can't be updated because booted from B (error code: " ++ fmtInt result ++ ")\n"
    else "Firmware update failed (error code: " ++ fmtInt result ++ ").\n")] <|
  returning (decide (result = 0))

/-- Source lines 75-258.  `boot_slot` is the empty string until the `switch`
assigns it.  The `default` case of the `switch` leaves through `return 1;`,
which a function returning `bool` hands back as `true`. -/
def ChromeosChrootPostinst (h : Host) (a : Answers) (install_dir src_version : String)
    (firmware_update : Bool) (install_dev : String) : Run :=
  emit [Call.printf ("ChromeosChrootPostinst(" ++ install_dir ++ ", " ++ src_version ++
    ", " ++ fmtBool firmware_update ++ ", " ++ install_dev ++ ")\n")] <|
  -- Extract External ENVs
  let is_factory_install := (h.getenv "IS_FACTORY_INSTALL").isSome
  let is_recovery_install := (h.getenv "IS_RECOVERY_INSTALL").isSome
  let is_install := (h.getenv "IS_INSTALL").isSome
  let is_update := !is_factory_install && !is_recovery_install && !is_install
  -- Find Misc partition/device names
  let root_dev := h.GetBlockDevFromPartitionDev install_dev
  let new_part_num := h.GetPartitionFromPartitionDev install_dev
  let new_kern_num := new_part_num - 1
  let new_k_dev := h.MakePartitionDev root_dev new_kern_num
  let boot_slot := if new_part_num = 3 then "A" else if new_part_num = 5 then "B" else ""
  if ¬ (new_part_num = 3 ∨ new_part_num = 5) then
    emit [Call.fprintf_stderr
      ("Not a valid target parition number: " ++ fmtInt new_part_num ++ "\n")] <|
    returning true
  else
  let patch := is_update && h.VersionLess src_version "0.10.156.2"
  emit (if patch then
    [Call.printf "Patching new rootfs\n",
     Call.R10FileSystemPatch install_dev a.R10FileSystemPatch] else []) <|
  if patch && !a.R10FileSystemPatch then returning false else
  let make_dev_readonly := patch
  -- If this FS was mounted read-write, we can't do deltas from it.
  emit [Call.Touch (install_dir ++ "/.nodelta") a.Touch_nodelta] <|
  emit [Call.printf ("Set boot target to " ++ install_dev ++ ": Partition " ++
    fmtInt new_part_num ++ ", Slot " ++ boot_slot ++ "\n")] <|
  emit [Call.SetImage install_dir root_dev install_dev new_k_dev a.SetImage] <|
  if !a.SetImage then
    emit [Call.printf "SetImage failed.\n"] <|
    returning false
  else
  emit [Call.printf "Syncing filesystems before changing boot order...\n"] <|
  emit [Call.sync] <|
  emit [Call.printf "Updating Partition Table Attributes using CgptManager...\n"] <|
  emit [Call.Initialize root_dev a.Initialize] <|
  if a.Initialize ≠ h.kCgptSuccess then
    emit [Call.printf "Unable to initialize CgptManager\n"] <|
    returning false
  else
  emit [Call.SetHighestPriority new_kern_num a.SetHighestPriority] <|
  if a.SetHighestPriority ≠ h.kCgptSuccess then
    emit [Call.printf ("Unable to set highest priority for kernel " ++
      fmtInt new_kern_num ++ "\n")] <|
    returning false
  else
  -- If it's not an update, pre-mark the first boot as successful
  -- since we can't fall back on the old install.
  let new_kern_successful := !is_update
  emit [Call.SetSuccessful new_kern_num new_kern_successful a.SetSuccessful] <|
  if a.SetSuccessful ≠ h.kCgptSuccess then
    emit [Call.printf ("Unable to set successful to " ++ fmtBool new_kern_successful ++
      " for kernel " ++ fmtInt new_kern_num ++ "\n")] <|
    returning false
  else
  let numTries : Int := 6
  emit [Call.SetNumTriesLeft new_kern_num numTries a.SetNumTriesLeft] <|
  if a.SetNumTriesLeft ≠ h.kCgptSuccess then
    emit [Call.printf ("Unable to set NumTriesLeft to " ++ fmtInt numTries ++
      " for kernel " ++ fmtInt new_kern_num ++ "\n")] <|
    returning false
  else
  emit [Call.printf ("Updated kernel " ++ fmtInt new_kern_num ++ " with Successful = " ++
    fmtBool new_kern_successful ++ " and NumTriesLeft = " ++ fmtInt numTries ++ "\n")] <|
  emit (if make_dev_readonly then
    [Call.printf ("Making dev " ++ install_dev ++ " read-only\n"),
     Call.MakeDeviceReadOnly install_dev a.MakeDeviceReadOnly] else []) <|
  -- From here on errors make the function fail in factory mode only.
  emit [Call.RemovePackFiles "/var/lib/ureadahead" a.RemovePackFiles] <|
  emit (if !a.RemovePackFiles then [Call.printf "RemovePackFiles Failed\n"] else []) <|
  if !a.RemovePackFiles && is_factory_install then returning false else
  emit [Call.Touch "/mnt/stateful_partition/.install_completed" a.Touch_install_completed] <|
  emit (if !a.Touch_install_completed then
    [Call.printf "Touch(/mnt/stateful_partition/.install_completed) FAILED\n"] else []) <|
  if !a.Touch_install_completed && is_factory_install then returning false else
  -- In factory process, firmware is either pre-flashed or assigned by
  -- mini-omaha server, and we don't want to try updates inside postinst.
  let run_updater := !is_factory_install && firmware_update
  let fw := FirmwareUpdate h a install_dir is_update
  emit (if run_updater then fw.trace else []) <|
  if run_updater && !fw.ret then
    emit [Call.printf
      "Rolling back update due to failure installing required firmware.\n"] <|
    -- In all these checks below, we continue even if there's a failure
    -- so as to cleanup as much as possible.
    let new_kern_successful := false
    let r1 := a.rollback_SetSuccessful
    emit [Call.SetSuccessful new_kern_num new_kern_successful r1] <|
    emit (if r1 ≠ h.kCgptSuccess then
      [Call.printf ("Unable to set successful to " ++ fmtBool new_kern_successful ++
        " for kernel " ++ fmtInt new_kern_num ++ "\n")] else []) <|
    let numTries : Int := 0
    let r2 := a.rollback_SetNumTriesLeft
    emit [Call.SetNumTriesLeft new_kern_num numTries r2] <|
    emit (if r2 ≠ h.kCgptSuccess then
      [Call.printf ("Unable to set NumTriesLeft to " ++ fmtInt numTries ++
        " for kernel " ++ fmtInt new_kern_num ++ "\n")] else []) <|
    let priority : Int := 0
    let r3 := a.rollback_SetPriority
    emit [Call.SetPriority new_kern_num priority r3] <|
    emit (if r3 ≠ h.kCgptSuccess then
      [Call.printf ("Unable to set Priority to " ++ fmtInt priority ++
        " for kernel " ++ fmtInt new_kern_num ++ "\n")] else []) <|
    let rollback_successful :=
      decide (r1 = h.kCgptSuccess) && decide (r2 = h.kCgptSuccess) &&
        decide (r3 = h.kCgptSuccess)
    emit (if rollback_successful then
      [Call.printf "Successfully updated GPT with all settings to rollback.\n"] else []) <|
    returning false
  else
  emit [Call.printf "ChromeosChrootPostinst complete\n"] <|
  returning true

/-- Source lines 264-290. -/
def RunPostInstall (h : Host) (a : Answers) (install_dir install_dev : String) : Run :=
  emit [Call.printf ("RunPostInstall(" ++ install_dir ++ ", " ++ install_dev ++ ")\n")] <|
  let src_version := a.LsbReleaseValue
  emit [Call.LsbReleaseValue "/etc/lsb-release" "CHROMEOS_RELEASE_VERSION" src_version] <|
  if src_version.isEmpty then
    emit [Call.printf "CHROMEOS_RELEASE_VERSION not found in /etc/lsb-release"] <|
    returning false
  else
  let tag_file := install_dir ++ "/root/.force_update_firmware"
  emit [Call.access tag_file 0 a.access_tag_file] <|
  let firmware_update := decide (a.access_tag_file = 0)
  ChromeosChrootPostinst h a install_dir src_version firmware_update install_dev

/-! ## Vocabulary of the properties -/

/-- Value of the local variable `is_factory_install` (line 85). -/
def isFactoryInstall (h : Host) : Bool := (h.getenv "IS_FACTORY_INSTALL").isSome

/-- Value of the local variable `is_recovery_install` (line 86). -/
def isRecoveryInstall (h : Host) : Bool := (h.getenv "IS_RECOVERY_INSTALL").isSome

/-- Value of the local variable `is_install` (line 87). -/
def isInstall (h : Host) : Bool := (h.getenv "IS_INSTALL").isSome

/-- Value of the local variable `is_update` (line 88). -/
def isUpdate (h : Host) : Bool :=
  !isFactoryInstall h && !isRecoveryInstall h && !isInstall h

/-- Value of the local variable `new_part_num` (line 92): the target root partition. -/
def newPartNum (h : Host) (install_dev : String) : Int :=
  h.GetPartitionFromPartitionDev install_dev

/-- Value of the local variable `new_kern_num` (line 93): the new kernel partition. -/
def newKernNum (h : Host) (install_dev : String) : Int := newPartNum h install_dev - 1

/-- Value of the local variable `root_dev` (line 91). -/
def rootDev (h : Host) (install_dev : String) : String :=
  h.GetBlockDevFromPartitionDev install_dev

/-- The target root partition is one of the two the `switch` accepts. -/
def validPartition (h : Host) (install_dev : String) : Bool :=
  decide (newPartNum h install_dev = 3) || decide (newPartNum h install_dev = 5)

/-- The condition of line 112 under which the legacy patch is run. -/
def patchRequired (h : Host) (src_version : String) : Bool :=
  isUpdate h && h.VersionLess src_version "0.10.156.2"

/-- No step before the attribute commit fails: the partition is valid, the
legacy patch, when it is required, succeeds, and `SetImage` succeeds. -/
def preCommitOk (h : Host) (a : Answers) (src_version install_dev : String) : Bool :=
  validPartition h install_dev && (!patchRequired h src_version || a.R10FileSystemPatch) &&
    a.SetImage

/-- The four calls of the attribute commit (lines 141-165) return `kCgptSuccess`. -/
def storeCommitOk (h : Host) (a : Answers) : Bool :=
  decide (a.Initialize = h.kCgptSuccess) && decide (a.SetHighestPriority = h.kCgptSuccess) &&
    decide (a.SetSuccessful = h.kCgptSuccess) && decide (a.SetNumTriesLeft = h.kCgptSuccess)

/-- Every step up to and including the attribute commit succeeds. -/
def commitOk (h : Host) (a : Answers) (src_version install_dev : String) : Bool :=
  preCommitOk h a src_version install_dev && storeCommitOk h a

/-- The firmware step of line 209 is reached and taken: the commit succeeded,
the mode is not factory-install and a firmware update is requested.  (Outside
factory mode the two steps between the commit and the firmware step never make
the function return.) -/
def firmwareStepReached (h : Host) (a : Answers) (src_version : String)
    (firmware_update : Bool) (install_dev : String) : Bool :=
  commitOk h a src_version install_dev && !isFactoryInstall h && firmware_update

/-- The updater is invoked: the firmware step is reached, the updater is
executable (`access` returns 0) and the compatibility probe returns 0. -/
def updaterInvoked (h : Host) (a : Answers) (src_version : String)
    (firmware_update : Bool) (install_dev : String) : Bool :=
  firmwareStepReached h a src_version firmware_update install_dev &&
    decide (a.access_updater = 0) && decide (a.system_probe = 0)

/-- Calls on the partition attribute store (`CgptManager`). -/
def isStoreCall : Call → Bool
  | .Initialize _ _ => true
  | .SetHighestPriority _ _ => true
  | .SetSuccessful _ _ _ => true
  | .SetNumTriesLeft _ _ _ => true
  | .SetPriority _ _ _ => true
  | _ => false

/-- The attribute-store calls of a trace, in order. -/
def storeCalls (t : List Call) : List Call := t.filter isStoreCall

/-- Calls of the legacy filesystem patch. -/
def isPatchCall : Call → Bool
  | .R10FileSystemPatch _ _ => true
  | _ => false

/-- Calls of the image installer. -/
def isImageInstallCall : Call → Bool
  | .SetImage _ _ _ _ _ => true
  | _ => false

/-- The calls `FirmwareUpdate` makes: the executable check (`access`), the
compatibility probe and the updater run (`system`). -/
def isFirmwareCall : Call → Bool
  | .access _ _ _ => true
  | .system _ _ => true
  | _ => false

/-- Calls of `system`: the compatibility probe and the updater run. -/
def isSystemCall : Call → Bool
  | .system _ _ => true
  | _ => false

/-- A legacy patch call that returned failure. -/
def isFailedPatch : Call → Bool
  | .R10FileSystemPatch _ ok => !ok
  | _ => false

/-- A `SetImage` call that returned failure. -/
def isFailedImageInstall : Call → Bool
  | .SetImage _ _ _ _ ok => !ok
  | _ => false

/-- Store calls that only the rollback makes: the commit never calls
`SetPriority` and sets the tries to 6, never to 0. -/
def isRevertOnly : Call → Bool
  | .SetPriority _ _ _ => true
  | .SetNumTriesLeft _ tries _ => decide (tries = 0)
  | _ => false

/-- Calls of `SetSuccessful`. -/
def isSetSuccessful : Call → Bool
  | .SetSuccessful _ _ _ => true
  | _ => false

/-- No revert call in the trace.  The commit of an update calls
`SetSuccessful(k, false)` itself, with the arguments of the revert, so the
revert's `SetSuccessful` is recognised as a second `SetSuccessful` call;
`SetNumTriesLeft(k, 0)` and `SetPriority` are recognised by themselves. -/
def noRevert (t : List Call) : Bool :=
  (t.filter isRevertOnly).isEmpty && decide ((t.filter isSetSuccessful).length ≤ 1)

/-- The store calls of a commit in which every call succeeds (lines 141-165). -/
def commitCalls (h : Host) (install_dev : String) : List Call :=
  [Call.Initialize (rootDev h install_dev) h.kCgptSuccess,
   Call.SetHighestPriority (newKernNum h install_dev) h.kCgptSuccess,
   Call.SetSuccessful (newKernNum h install_dev) (!isUpdate h) h.kCgptSuccess,
   Call.SetNumTriesLeft (newKernNum h install_dev) 6 h.kCgptSuccess]

/-- The three store calls of the rollback (lines 223-241), with the values
they return. -/
def revertCalls (h : Host) (a : Answers) (install_dev : String) : List Call :=
  [Call.SetSuccessful (newKernNum h install_dev) false a.rollback_SetSuccessful,
   Call.SetNumTriesLeft (newKernNum h install_dev) 0 a.rollback_SetNumTriesLeft,
   Call.SetPriority (newKernNum h install_dev) 0 a.rollback_SetPriority]

/-- Calls of `MakeDeviceReadOnly`. -/
def isMakeReadOnly : Call → Bool
  | .MakeDeviceReadOnly _ _ => true
  | _ => false

/-- Calls of `Touch`. -/
def isTouch : Call → Bool
  | .Touch _ _ => true
  | _ => false

/-- Calls of `RemovePackFiles`. -/
def isRemovePackFiles : Call → Bool
  | .RemovePackFiles _ _ => true
  | _ => false

/-- The call `sync()`. -/
def isSync : Call → Bool
  | .sync => true
  | _ => false

/-- A `SetImage` call that returned success. -/
def isSuccessfulImageInstall : Call → Bool
  | .SetImage _ _ _ _ ok => ok
  | _ => false

/-- A legacy patch call that returned success. -/
def isSuccessfulPatch : Call → Bool
  | .R10FileSystemPatch _ ok => ok
  | _ => false

/-- The kernel partition whose attribute a store call sets (`Initialize` opens
the whole device and names no partition). -/
def storeTarget : Call → Option Int
  | .SetHighestPriority kern _ => some kern
  | .SetSuccessful kern _ _ => some kern
  | .SetNumTriesLeft kern _ _ => some kern
  | .SetPriority kern _ _ => some kern
  | _ => none

/-- A store call that sets an attribute of a partition other than `kern`. -/
def targetsOther (kern : Int) (c : Call) : Bool :=
  match storeTarget c with
  | some k => decide (k ≠ kern)
  | none => false

/-- The command line with which `FirmwareUpdate` runs the updater (lines 25,
41-50). -/
def updaterCommand (install_dir : String) (is_update : Bool) : String :=
  install_dir ++ "/usr/sbin/chromeos-firmwareupdate" ++ " --mode=" ++
    (if is_update then "autoupdate" else "recovery")

/-- The compatibility probe of `FirmwareUpdate` (line 33). -/
def probeCommand (install_dir : String) : String := install_dir ++ "/bin/sh -c exit"

/-- The store calls of the commit as they are attempted, with the values they
return (lines 141-165). -/
def commitAttempt (h : Host) (a : Answers) (install_dev : String) : List Call :=
  [Call.Initialize (rootDev h install_dev) a.Initialize,
   Call.SetHighestPriority (newKernNum h install_dev) a.SetHighestPriority,
   Call.SetSuccessful (newKernNum h install_dev) (!isUpdate h) a.SetSuccessful,
   Call.SetNumTriesLeft (newKernNum h install_dev) 6 a.SetNumTriesLeft]

/-- Every store call of the trace has a successful `SetImage` call and a
`sync` call before it; `image` and `synced` tell whether these were seen
before the trace starts. -/
def storeCallsFollow (image synced : Bool) : List Call → Bool
  | [] => true
  | c :: t =>
    (!isStoreCall c || (image && synced)) &&
      storeCallsFollow (image || isSuccessfulImageInstall c) (synced || isSync c) t

/-- Modelled from the spec: the Boot Attribute Record kept for one kernel
partition, with its three fields priority, successful and tries-left. -/
structure Attributes where
  priority : Int
  successful : Bool
  tries_left : Int
  deriving DecidableEq, Repr

/-- Modelled from the spec: the effect of one call on a Partition Attribute
Store whose operations are absolute sets.  The store is a table from partition
number to attributes; a set operation that returns `ok` overwrites one field of
one partition and nothing else, `SetHighestPriority` writing the maximal
priority `top`; an operation that returns another value, and every call that is
not a set operation, leaves the table as it is. -/
def applyCall (ok top : Int) (s : Int → Attributes) : Call → Int → Attributes
  | .SetHighestPriority kern r =>
    if r = ok then Function.update s kern { s kern with priority := top } else s
  | .SetPriority kern p r =>
    if r = ok then Function.update s kern { s kern with priority := p } else s
  | .SetSuccessful kern v r =>
    if r = ok then Function.update s kern { s kern with successful := v } else s
  | .SetNumTriesLeft kern n r =>
    if r = ok then Function.update s kern { s kern with tries_left := n } else s
  | _ => s

/-- Modelled from the spec: the store after the calls of a trace, in order. -/
def applyTrace (ok top : Int) (s : Int → Attributes) (t : List Call) : Int → Attributes :=
  t.foldl (applyCall ok top) s

/-! ## Concrete inputs -/

/-- A host in which the environment variables `vars` are set, the target root
partition is `part` and `VersionLess` answers `older`. -/
def sampleHost (vars : List String) (part : Int) (older : Bool) : Host where
  getenv := fun name => if name ∈ vars then some "1" else none
  GetBlockDevFromPartitionDev := fun _ => "/dev/sda"
  GetPartitionFromPartitionDev := fun _ => part
  MakePartitionDev := fun dev n => dev ++ toString n
  VersionLess := fun _ _ => older
  kCgptSuccess := 0
  X_OK := 1

/-- Every call succeeds; the updater is present, the probe passes and the
updater returns `status`. -/
def sampleAnswers (status : Int) : Answers where
  access_updater := 0
  system_probe := 0
  system_updater := status
  R10FileSystemPatch := true
  Touch_nodelta := true
  SetImage := true
  Initialize := 0
  SetHighestPriority := 0
  SetSuccessful := 0
  SetNumTriesLeft := 0
  MakeDeviceReadOnly := true
  RemovePackFiles := true
  Touch_install_completed := true
  rollback_SetSuccessful := 0
  rollback_SetNumTriesLeft := 0
  rollback_SetPriority := 0
  LsbReleaseValue := "4.5.6"
  access_tag_file := 0

/-- The calls of a factory install on partition 3, with every call
succeeding, that come before `Initialize`. -/
def sampleBeforeInitialize : List Call :=
  [Call.printf "ChromeosChrootPostinst(/mnt, 4.5.6, 0, /dev/sda3)\n",
   Call.Touch "/mnt/.nodelta" true,
   Call.printf "Set boot target to /dev/sda3: Partition 3, Slot A\n",
   Call.SetImage "/mnt" "/dev/sda" "/dev/sda3" "/dev/sda2" true,
   Call.printf "Syncing filesystems before changing boot order...\n",
   Call.sync,
   Call.printf "Updating Partition Table Attributes using CgptManager...\n"]

/-- The calls of the same run that come after `Initialize`. -/
def sampleAfterInitialize : List Call :=
  [Call.SetHighestPriority 2 0, Call.SetSuccessful 2 true 0, Call.SetNumTriesLeft 2 6 0,
   Call.printf "Updated kernel 2 with Successful = 1 and NumTriesLeft = 6\n",
   Call.RemovePackFiles "/var/lib/ureadahead" true,
   Call.Touch "/mnt/stateful_partition/.install_completed" true,
   Call.printf "ChromeosChrootPostinst complete\n"]

/-! ## Projections of a run -/

theorem emit_ret (calls : List Call) (r : Run) : (emit calls r).ret = r.ret := rfl

theorem emit_trace (calls : List Call) (r : Run) :
    (emit calls r).trace = calls ++ r.trace := rfl

theorem returning_ret (b : Bool) : (returning b).ret = b := rfl

theorem returning_trace (b : Bool) : (returning b).trace = [] := rfl

theorem ret_ite (c : Prop) [Decidable c] (r s : Run) :
    (if c then r else s).ret = if c then r.ret else s.ret := by
  split <;> rfl

theorem trace_ite (c : Prop) [Decidable c] (r s : Run) :
    (if c then r else s).trace = if c then r.trace else s.trace := by
  split <;> rfl

theorem filter_ite (p : Call → Bool) (c : Prop) [Decidable c] (l m : List Call) :
    (if c then l else m).filter p = if c then l.filter p else m.filter p := by
  split <;> rfl

theorem FirmwareUpdate_storeCalls (h : Host) (a : Answers) (dir : String) (u : Bool) :
    (FirmwareUpdate h a dir u).trace.filter isStoreCall = [] := by
  simp [FirmwareUpdate, emit_trace, returning_trace, trace_ite, filter_ite, isStoreCall]

theorem FirmwareUpdate_revertOnly (h : Host) (a : Answers) (dir : String) (u : Bool) :
    (FirmwareUpdate h a dir u).trace.filter isRevertOnly = [] := by
  simp [FirmwareUpdate, emit_trace, returning_trace, trace_ite, filter_ite, isRevertOnly]

theorem FirmwareUpdate_setSuccessful (h : Host) (a : Answers) (dir : String) (u : Bool) :
    (FirmwareUpdate h a dir u).trace.filter isSetSuccessful = [] := by
  simp [FirmwareUpdate, emit_trace, returning_trace, trace_ite, filter_ite, isSetSuccessful]

theorem FirmwareUpdate_failedPatch (h : Host) (a : Answers) (dir : String) (u : Bool) :
    (FirmwareUpdate h a dir u).trace.filter isFailedPatch = [] := by
  simp [FirmwareUpdate, emit_trace, returning_trace, trace_ite, filter_ite, isFailedPatch]

theorem FirmwareUpdate_failedImageInstall (h : Host) (a : Answers) (dir : String) (u : Bool) :
    (FirmwareUpdate h a dir u).trace.filter isFailedImageInstall = [] := by
  simp [FirmwareUpdate, emit_trace, returning_trace, trace_ite, filter_ite, isFailedImageInstall]

theorem FirmwareUpdate_ret (h : Host) (a : Answers) (dir : String) (u : Bool) :
    (FirmwareUpdate h a dir u).ret =
      (decide (a.access_updater ≠ 0) || decide (a.system_probe ≠ 0) ||
        decide (a.system_updater = 0)) := by
  by_cases h1 : a.access_updater = 0 <;> by_cases h2 : a.system_probe = 0 <;>
    simp [FirmwareUpdate, emit_ret, returning_ret, ret_ite, h1, h2]

theorem commitOk_iff (h : Host) (a : Answers) (src_version install_dev : String) :
    commitOk h a src_version install_dev = true ↔
      ((h.GetPartitionFromPartitionDev install_dev = 3 ∨
          h.GetPartitionFromPartitionDev install_dev = 5) ∧
        ((patchRequired h src_version && !a.R10FileSystemPatch) = false) ∧
        a.SetImage = true) ∧
      a.Initialize = h.kCgptSuccess ∧ a.SetHighestPriority = h.kCgptSuccess ∧
        a.SetSuccessful = h.kCgptSuccess ∧ a.SetNumTriesLeft = h.kCgptSuccess := by
  cases hp : patchRequired h src_version <;> cases hq : a.R10FileSystemPatch <;>
    simp [commitOk, preCommitOk, storeCommitOk, validPartition, newPartNum, and_assoc, hp, hq]

/-- The result of a run whose commit succeeds. -/
theorem ret_of_commitOk (h : Host) (a : Answers) (install_dir src_version : String)
    (firmware_update : Bool) (install_dev : String)
    (hc : commitOk h a src_version install_dev = true) :
    (ChromeosChrootPostinst h a install_dir src_version firmware_update install_dev).ret =
      (!(isFactoryInstall h && (!a.RemovePackFiles || !a.Touch_install_completed)) &&
        !(!isFactoryInstall h && firmware_update &&
          !(FirmwareUpdate h a install_dir (isUpdate h)).ret)) := by
  rw [commitOk_iff] at hc
  obtain ⟨⟨hv, hp, hi⟩, h1, h2, h3, h4⟩ := hc
  simp only [patchRequired, isUpdate, isFactoryInstall, isRecoveryInstall, isInstall] at hp ⊢
  simp only [ChromeosChrootPostinst, emit_ret, ret_ite, returning_ret]
  simp only [hv, hi, h1, h2, h3, h4, hp]
  generalize (h.getenv "IS_FACTORY_INSTALL").isSome = F
  generalize a.RemovePackFiles = P
  generalize a.Touch_install_completed = T
  cases F <;> cases P <;> cases T <;> simp

/-- The store calls of a run whose commit succeeds. -/
theorem storeCalls_of_commitOk (h : Host) (a : Answers) (install_dir src_version : String)
    (firmware_update : Bool) (install_dev : String)
    (hc : commitOk h a src_version install_dev = true) :
    storeCalls (ChromeosChrootPostinst h a install_dir src_version firmware_update
        install_dev).trace =
      commitCalls h install_dev ++
        (if (!(isFactoryInstall h) && firmware_update &&
            !(FirmwareUpdate h a install_dir (isUpdate h)).ret) = true
          then revertCalls h a install_dev else []) := by
  rw [commitOk_iff] at hc
  obtain ⟨⟨hv, hp, hi⟩, h1, h2, h3, h4⟩ := hc
  simp only [patchRequired, isUpdate, isFactoryInstall, isRecoveryInstall, isInstall,
    commitCalls, revertCalls, newKernNum, newPartNum, rootDev, storeCalls] at hp ⊢
  simp only [ChromeosChrootPostinst, emit_trace, trace_ite, returning_trace, filter_ite,
    List.filter_append, List.filter_cons, List.filter_nil, isStoreCall,
    FirmwareUpdate_storeCalls]
  simp only [hv, hi, h1, h2, h3, h4, hp]
  generalize (h.getenv "IS_FACTORY_INSTALL").isSome = F
  generalize a.RemovePackFiles = P
  generalize a.Touch_install_completed = T
  cases F <;> cases P <;> cases T <;> simp

/-- The `system` calls of a run that reaches the firmware step are those of
`FirmwareUpdate`. -/
theorem systemCalls_of_firmwareStepReached (h : Host) (a : Answers)
    (install_dir src_version : String) (firmware_update : Bool) (install_dev : String)
    (hr : firmwareStepReached h a src_version firmware_update install_dev = true) :
    (ChromeosChrootPostinst h a install_dir src_version firmware_update
        install_dev).trace.filter isSystemCall =
      (FirmwareUpdate h a install_dir (isUpdate h)).trace.filter isSystemCall := by
  simp only [firmwareStepReached, Bool.and_eq_true, Bool.not_eq_true'] at hr
  obtain ⟨⟨hc, hf⟩, hu⟩ := hr
  rw [commitOk_iff] at hc
  obtain ⟨⟨hv, hp, hi⟩, h1, h2, h3, h4⟩ := hc
  simp only [patchRequired, isUpdate, isFactoryInstall, isRecoveryInstall, isInstall]
    at hp hf ⊢
  simp only [ChromeosChrootPostinst, emit_trace, trace_ite, returning_trace, filter_ite,
    List.filter_append, List.filter_cons, List.filter_nil, isSystemCall]
  simp only [hv, hi, h1, h2, h3, h4, hp]
  simp [hf, hu]

/-- Only store calls matter for `noRevert`. -/
theorem noRevert_storeCalls (t : List Call) : noRevert (storeCalls t) = noRevert t := by
  have h1 : ∀ c, (isRevertOnly c && isStoreCall c) = isRevertOnly c := by
    intro c; cases c <;> simp [isRevertOnly, isStoreCall]
  have h2 : ∀ c, (isSetSuccessful c && isStoreCall c) = isSetSuccessful c := by
    intro c; cases c <;> simp [isSetSuccessful, isStoreCall]
  simp only [noRevert, storeCalls, List.filter_filter, h1, h2]

theorem noRevert_commitCalls (h : Host) (install_dev : String) :
    noRevert (commitCalls h install_dev) = true := by
  simp [noRevert, commitCalls, List.filter_cons, isRevertOnly, isSetSuccessful]

/-! ## The claims -/

/-- C1 (the code departs from it): with target root partition 4 the run prints
"Not a valid target parition number" and leaves through `return 1;`, so the
caller receives `true`, not failure. -/
theorem C1_invalid_partition_returns_true :
    ChromeosChrootPostinst (sampleHost [] 4 false) (sampleAnswers 0) "/mnt" "4.5.6" false
        "/dev/sda4" =
      ⟨true, [Call.printf "ChromeosChrootPostinst(/mnt, 4.5.6, 0, /dev/sda4)\n",
              Call.fprintf_stderr "Not a valid target parition number: 4\n"]⟩ := by
  decide

/-- C2: for a target root partition other than 3 and 5 the run makes no
attribute-store call, no legacy patch call, no image-install call and none of
the calls of the firmware updater: it only writes its two diagnostic lines. -/
theorem C2_invalid_partition_makes_no_call (h : Host) (a : Answers)
    (install_dir src_version : String) (firmware_update : Bool) (install_dev : String)
    (h3 : newPartNum h install_dev ≠ 3) (h5 : newPartNum h install_dev ≠ 5) :
    storeCalls (ChromeosChrootPostinst h a install_dir src_version firmware_update
        install_dev).trace = [] ∧
      (ChromeosChrootPostinst h a install_dir src_version firmware_update
        install_dev).trace.filter isPatchCall = [] ∧
      (ChromeosChrootPostinst h a install_dir src_version firmware_update
        install_dev).trace.filter isImageInstallCall = [] ∧
      (ChromeosChrootPostinst h a install_dir src_version firmware_update
        install_dev).trace.filter isFirmwareCall = [] ∧
      (ChromeosChrootPostinst h a install_dir src_version firmware_update
        install_dev).trace =
        [Call.printf ("ChromeosChrootPostinst(" ++ install_dir ++ ", " ++ src_version ++
            ", " ++ fmtBool firmware_update ++ ", " ++ install_dev ++ ")\n"),
         Call.fprintf_stderr ("Not a valid target parition number: " ++
            fmtInt (newPartNum h install_dev) ++ "\n")] := by
  unfold newPartNum at h3 h5 ⊢
  simp [ChromeosChrootPostinst, emit_trace, returning_trace, trace_ite, storeCalls, h3, h5,
    isStoreCall, isPatchCall,
    isImageInstallCall, isFirmwareCall]

/-- C2, at a concrete input: target root partition 4. -/
theorem C2_invalid_partition_makes_no_call_witness :
    newPartNum (sampleHost [] 4 true) "/dev/sda4" ≠ 3 ∧
    newPartNum (sampleHost [] 4 true) "/dev/sda4" ≠ 5 ∧
    (storeCalls (ChromeosChrootPostinst (sampleHost [] 4 true) (sampleAnswers 0) "/mnt" "0.9"
        true "/dev/sda4").trace = [] ∧
      (ChromeosChrootPostinst (sampleHost [] 4 true) (sampleAnswers 0) "/mnt" "0.9"
        true "/dev/sda4").trace.filter isPatchCall = [] ∧
      (ChromeosChrootPostinst (sampleHost [] 4 true) (sampleAnswers 0) "/mnt" "0.9"
        true "/dev/sda4").trace.filter isImageInstallCall = [] ∧
      (ChromeosChrootPostinst (sampleHost [] 4 true) (sampleAnswers 0) "/mnt" "0.9"
        true "/dev/sda4").trace.filter isFirmwareCall = [] ∧
      (ChromeosChrootPostinst (sampleHost [] 4 true) (sampleAnswers 0) "/mnt" "0.9"
        true "/dev/sda4").trace =
        [Call.printf "ChromeosChrootPostinst(/mnt, 0.9, 1, /dev/sda4)\n",
         Call.fprintf_stderr "Not a valid target parition number: 4\n"]) :=
  ⟨by decide, by decide,
   C2_invalid_partition_makes_no_call (sampleHost [] 4 true) (sampleAnswers 0) "/mnt" "0.9"
      true "/dev/sda4" (by decide) (by decide)⟩

/-- C3 (as stated it fails): in an update run on partition 3 in which every
step succeeds, the updater is present, the probe passes and the updater returns
status 3, `FirmwareUpdate` returns `false`, `ChromeosChrootPostinst` returns
`false` and the three revert calls follow the commit. -/
theorem C3_status_3_counterexample :
    commitOk (sampleHost [] 3 false) (sampleAnswers 3) "4.5.6" "/dev/sda3" = true ∧
    isFactoryInstall (sampleHost [] 3 false) = false ∧
    (sampleAnswers 3).access_updater = 0 ∧
    (sampleAnswers 3).system_probe = 0 ∧
    (sampleAnswers 3).system_updater = 3 ∧
    (FirmwareUpdate (sampleHost [] 3 false) (sampleAnswers 3) "/mnt" true).ret = false ∧
    (ChromeosChrootPostinst (sampleHost [] 3 false) (sampleAnswers 3) "/mnt" "4.5.6" true
      "/dev/sda3").ret = false ∧
    storeCalls (ChromeosChrootPostinst (sampleHost [] 3 false) (sampleAnswers 3) "/mnt" "4.5.6"
      true "/dev/sda3").trace =
      [Call.Initialize "/dev/sda" 0, Call.SetHighestPriority 2 0,
       Call.SetSuccessful 2 false 0, Call.SetNumTriesLeft 2 6 0,
       Call.SetSuccessful 2 false 0, Call.SetNumTriesLeft 2 0 0, Call.SetPriority 2 0 0] ∧
    noRevert (ChromeosChrootPostinst (sampleHost [] 3 false) (sampleAnswers 3) "/mnt" "4.5.6"
      true "/dev/sda3").trace = false := by
  decide

/-- C3 (amended): when the commit succeeds, the mode is not factory-install, a
firmware update is requested, the updater is present, the probe passes and the
updater returns status 3, `FirmwareUpdate` returns `false` (it returns
`result == 0`), `ChromeosChrootPostinst` returns failure, and its store calls
are the commit followed by the three revert calls. -/
theorem C3_status_3_is_a_failure (h : Host) (a : Answers)
    (install_dir src_version : String) (firmware_update : Bool) (install_dev : String)
    (hcommit : commitOk h a src_version install_dev = true)
    (hmode : isFactoryInstall h = false)
    (hfw : firmware_update = true)
    (hpresent : a.access_updater = 0)
    (hprobe : a.system_probe = 0)
    (hstatus : a.system_updater = 3) :
    (FirmwareUpdate h a install_dir (isUpdate h)).ret = false ∧
      (ChromeosChrootPostinst h a install_dir src_version firmware_update install_dev).ret =
        false ∧
      storeCalls (ChromeosChrootPostinst h a install_dir src_version firmware_update
        install_dev).trace = commitCalls h install_dev ++ revertCalls h a install_dev := by
  have hret : (FirmwareUpdate h a install_dir (isUpdate h)).ret = false := by
    simp [FirmwareUpdate_ret, hpresent, hprobe, hstatus]
  refine ⟨hret, ?_, ?_⟩
  · rw [ret_of_commitOk h a install_dir src_version firmware_update install_dev hcommit]
    simp [hret, hmode, hfw]
  · rw [storeCalls_of_commitOk h a install_dir src_version firmware_update install_dev hcommit]
    simp [hret, hmode, hfw]

/-- C3 (amended), at a concrete input: a recovery install on partition 5. -/
theorem C3_status_3_is_a_failure_witness :
    commitOk (sampleHost ["IS_RECOVERY_INSTALL"] 5 false) (sampleAnswers 3) "4.5.6"
      "/dev/sda5" = true ∧
    isFactoryInstall (sampleHost ["IS_RECOVERY_INSTALL"] 5 false) = false ∧
    (sampleAnswers 3).access_updater = 0 ∧
    (sampleAnswers 3).system_probe = 0 ∧
    (sampleAnswers 3).system_updater = 3 ∧
    ((FirmwareUpdate (sampleHost ["IS_RECOVERY_INSTALL"] 5 false) (sampleAnswers 3) "/mnt"
        (isUpdate (sampleHost ["IS_RECOVERY_INSTALL"] 5 false))).ret = false ∧
      (ChromeosChrootPostinst (sampleHost ["IS_RECOVERY_INSTALL"] 5 false) (sampleAnswers 3)
        "/mnt" "4.5.6" true "/dev/sda5").ret = false ∧
      storeCalls (ChromeosChrootPostinst (sampleHost ["IS_RECOVERY_INSTALL"] 5 false)
        (sampleAnswers 3) "/mnt" "4.5.6" true "/dev/sda5").trace =
        commitCalls (sampleHost ["IS_RECOVERY_INSTALL"] 5 false) "/dev/sda5" ++
          revertCalls (sampleHost ["IS_RECOVERY_INSTALL"] 5 false) (sampleAnswers 3)
            "/dev/sda5") :=
  ⟨by decide, by decide, by decide, by decide, by decide,
   C3_status_3_is_a_failure (sampleHost ["IS_RECOVERY_INSTALL"] 5 false) (sampleAnswers 3)
     "/mnt" "4.5.6" true "/dev/sda5" (by decide) (by decide) rfl (by decide) (by decide)
     (by decide)⟩

/-- C4: when the updater is invoked and returns a status other than 0 and 3,
`ChromeosChrootPostinst` returns failure and its store calls are the commit
followed by `SetSuccessful(k, false)`, `SetNumTriesLeft(k, 0)` and
`SetPriority(k, 0)` on the new kernel partition, whatever each of the three
revert calls returns. -/
theorem C4_updater_failure_reverts (h : Host) (a : Answers)
    (install_dir src_version : String) (firmware_update : Bool) (install_dev : String)
    (hinvoked : updaterInvoked h a src_version firmware_update install_dev = true)
    (h0 : a.system_updater ≠ 0) (_h3 : a.system_updater ≠ 3) :
    (ChromeosChrootPostinst h a install_dir src_version firmware_update install_dev).ret =
        false ∧
      storeCalls (ChromeosChrootPostinst h a install_dir src_version firmware_update
        install_dev).trace =
        commitCalls h install_dev ++
          [Call.SetSuccessful (newKernNum h install_dev) false a.rollback_SetSuccessful,
           Call.SetNumTriesLeft (newKernNum h install_dev) 0 a.rollback_SetNumTriesLeft,
           Call.SetPriority (newKernNum h install_dev) 0 a.rollback_SetPriority] := by
  simp only [updaterInvoked, firmwareStepReached, Bool.and_eq_true, Bool.not_eq_true',
    decide_eq_true_eq] at hinvoked
  obtain ⟨⟨⟨⟨hcommit, hmode⟩, hfw⟩, hpresent⟩, hprobe⟩ := hinvoked
  have hret : (FirmwareUpdate h a install_dir (isUpdate h)).ret = false := by
    simp [FirmwareUpdate_ret, hpresent, hprobe, h0]
  constructor
  · rw [ret_of_commitOk h a install_dir src_version firmware_update install_dev hcommit]
    simp [hret, hmode, hfw]
  · rw [storeCalls_of_commitOk h a install_dir src_version firmware_update install_dev hcommit]
    simp [hret, hmode, hfw, revertCalls]

/-- C4, at a concrete input: the updater returns 1, the first and the third
revert call fail. -/
theorem C4_updater_failure_reverts_witness :
    updaterInvoked (sampleHost [] 3 false)
      { sampleAnswers 1 with rollback_SetSuccessful := 2, rollback_SetPriority := 2 }
      "4.5.6" true "/dev/sda3" = true ∧
    (1 : Int) ≠ 0 ∧ (1 : Int) ≠ 3 ∧
    (ChromeosChrootPostinst (sampleHost [] 3 false)
      { sampleAnswers 1 with rollback_SetSuccessful := 2, rollback_SetPriority := 2 }
      "/mnt" "4.5.6" true "/dev/sda3").ret = false ∧
    storeCalls (ChromeosChrootPostinst (sampleHost [] 3 false)
      { sampleAnswers 1 with rollback_SetSuccessful := 2, rollback_SetPriority := 2 }
      "/mnt" "4.5.6" true "/dev/sda3").trace =
      [Call.Initialize "/dev/sda" 0, Call.SetHighestPriority 2 0,
       Call.SetSuccessful 2 false 0, Call.SetNumTriesLeft 2 6 0,
       Call.SetSuccessful 2 false 2, Call.SetNumTriesLeft 2 0 0, Call.SetPriority 2 0 2] :=
  ⟨by decide, by decide, by decide,
   C4_updater_failure_reverts (sampleHost [] 3 false)
     { sampleAnswers 1 with rollback_SetSuccessful := 2, rollback_SetPriority := 2 }
     "/mnt" "4.5.6" true "/dev/sda3" (by decide) (by decide) (by decide)⟩

/-- C5: in a run with a valid partition in which every step through the
attribute commit succeeds, the store calls are `Initialize`,
`SetHighestPriority(k)`, `SetSuccessful(k, !is_update)` and
`SetNumTriesLeft(k, 6)` on the new kernel partition `k`, followed by nothing or
by the three calls of the rollback; the committed flag `!is_update` is `true`
exactly in factory, recovery and interactive-install mode. -/
theorem C5_commit_calls (h : Host) (a : Answers)
    (install_dir src_version : String) (firmware_update : Bool) (install_dev : String)
    (hcommit : commitOk h a src_version install_dev = true) :
    (storeCalls (ChromeosChrootPostinst h a install_dir src_version firmware_update
          install_dev).trace =
        [Call.Initialize (rootDev h install_dev) h.kCgptSuccess,
         Call.SetHighestPriority (newKernNum h install_dev) h.kCgptSuccess,
         Call.SetSuccessful (newKernNum h install_dev) (!isUpdate h) h.kCgptSuccess,
         Call.SetNumTriesLeft (newKernNum h install_dev) 6 h.kCgptSuccess] ∨
      storeCalls (ChromeosChrootPostinst h a install_dir src_version firmware_update
          install_dev).trace =
        [Call.Initialize (rootDev h install_dev) h.kCgptSuccess,
         Call.SetHighestPriority (newKernNum h install_dev) h.kCgptSuccess,
         Call.SetSuccessful (newKernNum h install_dev) (!isUpdate h) h.kCgptSuccess,
         Call.SetNumTriesLeft (newKernNum h install_dev) 6 h.kCgptSuccess] ++
          revertCalls h a install_dev) ∧
      ((!isUpdate h) = (isFactoryInstall h || isRecoveryInstall h || isInstall h)) := by
  constructor
  · rw [storeCalls_of_commitOk h a install_dir src_version firmware_update install_dev hcommit]
    by_cases hr : (!(isFactoryInstall h) && firmware_update &&
        !(FirmwareUpdate h a install_dir (isUpdate h)).ret) = true
    · right; simp [hr, commitCalls]
    · left; simp [hr, commitCalls]
  · simp only [isUpdate]
    cases isFactoryInstall h <;> cases isRecoveryInstall h <;> cases isInstall h <;> rfl

/-- C5, at a concrete input: an interactive install on partition 3. -/
theorem C5_commit_calls_witness :
    commitOk (sampleHost ["IS_INSTALL"] 3 true) (sampleAnswers 0) "0.9" "/dev/sda3" = true ∧
    storeCalls (ChromeosChrootPostinst (sampleHost ["IS_INSTALL"] 3 true) (sampleAnswers 0)
      "/mnt" "0.9" false "/dev/sda3").trace =
      [Call.Initialize "/dev/sda" 0, Call.SetHighestPriority 2 0,
       Call.SetSuccessful 2 true 0, Call.SetNumTriesLeft 2 6 0] ∧
    ((!isUpdate (sampleHost ["IS_INSTALL"] 3 true)) =
      (isFactoryInstall (sampleHost ["IS_INSTALL"] 3 true) ||
        isRecoveryInstall (sampleHost ["IS_INSTALL"] 3 true) ||
        isInstall (sampleHost ["IS_INSTALL"] 3 true))) :=
  ⟨by decide,
   ((C5_commit_calls (sampleHost ["IS_INSTALL"] 3 true) (sampleAnswers 0) "/mnt" "0.9" false
      "/dev/sda3" (by decide)).1).resolve_right (by decide),
   (C5_commit_calls (sampleHost ["IS_INSTALL"] 3 true) (sampleAnswers 0) "/mnt" "0.9" false
      "/dev/sda3" (by decide)).2⟩

/-- C6: if the legacy patch is run and returns failure, or `SetImage` returns
failure, `ChromeosChrootPostinst` returns failure and its trace has no
attribute-store call, not even `Initialize`. -/
theorem C6_precommit_failure_makes_no_store_call (h : Host) (a : Answers)
    (install_dir src_version : String) (firmware_update : Bool) (install_dev : String)
    (hfail : (ChromeosChrootPostinst h a install_dir src_version firmware_update
          install_dev).trace.filter isFailedPatch ≠ [] ∨
        (ChromeosChrootPostinst h a install_dir src_version firmware_update
          install_dev).trace.filter isFailedImageInstall ≠ []) :
    (ChromeosChrootPostinst h a install_dir src_version firmware_update install_dev).ret =
        false ∧
      storeCalls (ChromeosChrootPostinst h a install_dir src_version firmware_update
        install_dev).trace = [] := by
  revert hfail
  simp only [ChromeosChrootPostinst, emit_trace, emit_ret, ret_ite, trace_ite, returning_ret,
    returning_trace, filter_ite, List.filter_append, List.filter_cons, List.filter_nil,
    isFailedPatch, isFailedImageInstall, isStoreCall, storeCalls, FirmwareUpdate_failedPatch,
    FirmwareUpdate_failedImageInstall, FirmwareUpdate_storeCalls]
  generalize (h.getenv "IS_FACTORY_INSTALL").isSome = F
  generalize (!F && !(h.getenv "IS_RECOVERY_INSTALL").isSome &&
    !(h.getenv "IS_INSTALL").isSome && h.VersionLess src_version "0.10.156.2") = patch
  by_cases hv : h.GetPartitionFromPartitionDev install_dev = 3 ∨
      h.GetPartitionFromPartitionDev install_dev = 5
  · simp only [hv]
    cases patch <;> cases a.R10FileSystemPatch <;> cases a.SetImage <;> simp
  · simp [hv]

/-- C6, at two concrete inputs: an update from an old version whose patch
fails, and a recovery install whose `SetImage` fails. -/
theorem C6_precommit_failure_makes_no_store_call_witness :
    ((ChromeosChrootPostinst (sampleHost [] 5 true)
        { sampleAnswers 0 with R10FileSystemPatch := false } "/mnt" "0.9" true
        "/dev/sda5").trace.filter isFailedPatch ≠ [] ∧
      (ChromeosChrootPostinst (sampleHost [] 5 true)
        { sampleAnswers 0 with R10FileSystemPatch := false } "/mnt" "0.9" true
        "/dev/sda5").ret = false ∧
      storeCalls (ChromeosChrootPostinst (sampleHost [] 5 true)
        { sampleAnswers 0 with R10FileSystemPatch := false } "/mnt" "0.9" true
        "/dev/sda5").trace = []) ∧
    ((ChromeosChrootPostinst (sampleHost ["IS_RECOVERY_INSTALL"] 3 false)
        { sampleAnswers 0 with SetImage := false } "/mnt" "4.5.6" true
        "/dev/sda3").trace.filter isFailedImageInstall ≠ [] ∧
      (ChromeosChrootPostinst (sampleHost ["IS_RECOVERY_INSTALL"] 3 false)
        { sampleAnswers 0 with SetImage := false } "/mnt" "4.5.6" true
        "/dev/sda3").ret = false ∧
      storeCalls (ChromeosChrootPostinst (sampleHost ["IS_RECOVERY_INSTALL"] 3 false)
        { sampleAnswers 0 with SetImage := false } "/mnt" "4.5.6" true
        "/dev/sda3").trace = []) :=
  ⟨⟨by decide,
    C6_precommit_failure_makes_no_store_call (sampleHost [] 5 true)
      { sampleAnswers 0 with R10FileSystemPatch := false } "/mnt" "0.9" true "/dev/sda5"
      (Or.inl (by decide))⟩,
   ⟨by decide,
    C6_precommit_failure_makes_no_store_call (sampleHost ["IS_RECOVERY_INSTALL"] 3 false)
      { sampleAnswers 0 with SetImage := false } "/mnt" "4.5.6" true "/dev/sda3"
      (Or.inr (by decide))⟩⟩

/-- C7: when `access` reports that the updater is absent or not executable,
`FirmwareUpdate` returns `true` after that single call, without running the
probe or the updater; and when the firmware step is reached (commit succeeded,
not factory-install, firmware update requested), `ChromeosChrootPostinst`
returns success, makes no `system` call, and its store calls are those of the
commit, so that no revert call is issued. -/
theorem C7_updater_absent (h : Host) (a : Answers)
    (install_dir src_version : String) (firmware_update is_update : Bool)
    (install_dev : String)
    (habsent : a.access_updater ≠ 0) :
    ((FirmwareUpdate h a install_dir is_update).ret = true ∧
      (FirmwareUpdate h a install_dir is_update).trace =
        [Call.access (install_dir ++ "/usr/sbin/chromeos-firmwareupdate") h.X_OK
            a.access_updater,
         Call.printf "No firmware updates available.\n"]) ∧
    (firmwareStepReached h a src_version firmware_update install_dev = true →
      (ChromeosChrootPostinst h a install_dir src_version firmware_update install_dev).ret =
          true ∧
        (ChromeosChrootPostinst h a install_dir src_version firmware_update
          install_dev).trace.filter isSystemCall = [] ∧
        storeCalls (ChromeosChrootPostinst h a install_dir src_version firmware_update
          install_dev).trace = commitCalls h install_dev ∧
        noRevert (ChromeosChrootPostinst h a install_dir src_version firmware_update
          install_dev).trace = true) := by
  have hfw : ∀ u, (FirmwareUpdate h a install_dir u).ret = true := by
    intro u; simp [FirmwareUpdate_ret, habsent]
  have htr : ∀ u, (FirmwareUpdate h a install_dir u).trace =
      [Call.access (install_dir ++ "/usr/sbin/chromeos-firmwareupdate") h.X_OK
          a.access_updater,
       Call.printf "No firmware updates available.\n"] := by
    intro u; simp [FirmwareUpdate, emit_trace, returning_trace, trace_ite, habsent]
  refine ⟨⟨hfw _, htr _⟩, fun hr => ?_⟩
  have hsys := systemCalls_of_firmwareStepReached h a install_dir src_version firmware_update
    install_dev hr
  simp only [firmwareStepReached, Bool.and_eq_true, Bool.not_eq_true'] at hr
  obtain ⟨⟨hc, hf⟩, hu⟩ := hr
  have hst : storeCalls (ChromeosChrootPostinst h a install_dir src_version firmware_update
      install_dev).trace = commitCalls h install_dev := by
    rw [storeCalls_of_commitOk h a install_dir src_version firmware_update install_dev hc]
    simp [hfw]
  refine ⟨?_, ?_, hst, ?_⟩
  · rw [ret_of_commitOk h a install_dir src_version firmware_update install_dev hc]
    simp [hfw, hf]
  · rw [hsys, htr]; simp [isSystemCall]
  · rw [← noRevert_storeCalls, hst, noRevert_commitCalls]

/-- C7, at a concrete input: an update on partition 3 with no updater. -/
theorem C7_updater_absent_witness :
    (-1 : Int) ≠ 0 ∧
    firmwareStepReached (sampleHost [] 3 false) { sampleAnswers 0 with access_updater := -1 }
      "4.5.6" true "/dev/sda3" = true ∧
    ((FirmwareUpdate (sampleHost [] 3 false) { sampleAnswers 0 with access_updater := -1 }
        "/mnt" true).ret = true ∧
      (FirmwareUpdate (sampleHost [] 3 false) { sampleAnswers 0 with access_updater := -1 }
        "/mnt" true).trace =
        [Call.access "/mnt/usr/sbin/chromeos-firmwareupdate" 1 (-1),
         Call.printf "No firmware updates available.\n"]) ∧
    ((ChromeosChrootPostinst (sampleHost [] 3 false)
        { sampleAnswers 0 with access_updater := -1 } "/mnt" "4.5.6" true "/dev/sda3").ret =
        true ∧
      (ChromeosChrootPostinst (sampleHost [] 3 false)
        { sampleAnswers 0 with access_updater := -1 } "/mnt" "4.5.6" true
        "/dev/sda3").trace.filter isSystemCall = [] ∧
      storeCalls (ChromeosChrootPostinst (sampleHost [] 3 false)
        { sampleAnswers 0 with access_updater := -1 } "/mnt" "4.5.6" true "/dev/sda3").trace =
        [Call.Initialize "/dev/sda" 0, Call.SetHighestPriority 2 0,
         Call.SetSuccessful 2 false 0, Call.SetNumTriesLeft 2 6 0] ∧
      noRevert (ChromeosChrootPostinst (sampleHost [] 3 false)
        { sampleAnswers 0 with access_updater := -1 } "/mnt" "4.5.6" true "/dev/sda3").trace =
        true) :=
  ⟨by decide, by decide,
   (C7_updater_absent (sampleHost [] 3 false) { sampleAnswers 0 with access_updater := -1 }
      "/mnt" "4.5.6" true true "/dev/sda3" (by decide)).1,
   (C7_updater_absent (sampleHost [] 3 false) { sampleAnswers 0 with access_updater := -1 }
      "/mnt" "4.5.6" true true "/dev/sda3" (by decide)).2 (by decide)⟩

/-- C8: when the updater is executable but the compatibility probe returns
non-zero, `FirmwareUpdate` returns `true` and its only `system` call is the
probe, the updater is never invoked; and when the firmware step is reached,
`ChromeosChrootPostinst` returns success, its only `system` call is the probe,
and its store calls are those of the commit, so that no revert call is
issued. -/
theorem C8_probe_failure_skips_updater (h : Host) (a : Answers)
    (install_dir src_version : String) (firmware_update is_update : Bool)
    (install_dev : String)
    (hpresent : a.access_updater = 0) (hprobe : a.system_probe ≠ 0) :
    ((FirmwareUpdate h a install_dir is_update).ret = true ∧
      (FirmwareUpdate h a install_dir is_update).trace.filter isSystemCall =
        [Call.system (install_dir ++ "/bin/sh -c exit") a.system_probe]) ∧
    (firmwareStepReached h a src_version firmware_update install_dev = true →
      (ChromeosChrootPostinst h a install_dir src_version firmware_update install_dev).ret =
          true ∧
        (ChromeosChrootPostinst h a install_dir src_version firmware_update
          install_dev).trace.filter isSystemCall =
          [Call.system (install_dir ++ "/bin/sh -c exit") a.system_probe] ∧
        storeCalls (ChromeosChrootPostinst h a install_dir src_version firmware_update
          install_dev).trace = commitCalls h install_dev ∧
        noRevert (ChromeosChrootPostinst h a install_dir src_version firmware_update
          install_dev).trace = true) := by
  have hfw : ∀ u, (FirmwareUpdate h a install_dir u).ret = true := by
    intro u; simp [FirmwareUpdate_ret, hprobe]
  have htr : ∀ u, (FirmwareUpdate h a install_dir u).trace.filter isSystemCall =
      [Call.system (install_dir ++ "/bin/sh -c exit") a.system_probe] := by
    intro u; simp [FirmwareUpdate, emit_trace, returning_trace, trace_ite, hpresent, hprobe, isSystemCall]
  refine ⟨⟨hfw _, htr _⟩, fun hr => ?_⟩
  have hsys := systemCalls_of_firmwareStepReached h a install_dir src_version firmware_update
    install_dev hr
  simp only [firmwareStepReached, Bool.and_eq_true, Bool.not_eq_true'] at hr
  obtain ⟨⟨hc, hf⟩, hu⟩ := hr
  have hst : storeCalls (ChromeosChrootPostinst h a install_dir src_version firmware_update
      install_dev).trace = commitCalls h install_dev := by
    rw [storeCalls_of_commitOk h a install_dir src_version firmware_update install_dev hc]
    simp [hfw]
  refine ⟨?_, ?_, hst, ?_⟩
  · rw [ret_of_commitOk h a install_dir src_version firmware_update install_dev hc]
    simp [hfw, hf]
  · rw [hsys, htr]
  · rw [← noRevert_storeCalls, hst, noRevert_commitCalls]

/-- C8, at a concrete input: a recovery install on partition 5 whose probe
returns 127. -/
theorem C8_probe_failure_skips_updater_witness :
    (0 : Int) = 0 ∧ (127 : Int) ≠ 0 ∧
    firmwareStepReached (sampleHost ["IS_RECOVERY_INSTALL"] 5 false)
      { sampleAnswers 1 with system_probe := 127 } "4.5.6" true "/dev/sda5" = true ∧
    ((FirmwareUpdate (sampleHost ["IS_RECOVERY_INSTALL"] 5 false)
        { sampleAnswers 1 with system_probe := 127 } "/mnt" false).ret = true ∧
      (FirmwareUpdate (sampleHost ["IS_RECOVERY_INSTALL"] 5 false)
        { sampleAnswers 1 with system_probe := 127 } "/mnt" false).trace.filter isSystemCall =
        [Call.system "/mnt/bin/sh -c exit" 127]) ∧
    ((ChromeosChrootPostinst (sampleHost ["IS_RECOVERY_INSTALL"] 5 false)
        { sampleAnswers 1 with system_probe := 127 } "/mnt" "4.5.6" true "/dev/sda5").ret =
        true ∧
      (ChromeosChrootPostinst (sampleHost ["IS_RECOVERY_INSTALL"] 5 false)
        { sampleAnswers 1 with system_probe := 127 } "/mnt" "4.5.6" true
        "/dev/sda5").trace.filter isSystemCall = [Call.system "/mnt/bin/sh -c exit" 127] ∧
      storeCalls (ChromeosChrootPostinst (sampleHost ["IS_RECOVERY_INSTALL"] 5 false)
        { sampleAnswers 1 with system_probe := 127 } "/mnt" "4.5.6" true "/dev/sda5").trace =
        [Call.Initialize "/dev/sda" 0, Call.SetHighestPriority 4 0,
         Call.SetSuccessful 4 true 0, Call.SetNumTriesLeft 4 6 0] ∧
      noRevert (ChromeosChrootPostinst (sampleHost ["IS_RECOVERY_INSTALL"] 5 false)
        { sampleAnswers 1 with system_probe := 127 } "/mnt" "4.5.6" true "/dev/sda5").trace =
        true) :=
  ⟨by decide, by decide, by decide,
   (C8_probe_failure_skips_updater (sampleHost ["IS_RECOVERY_INSTALL"] 5 false)
      { sampleAnswers 1 with system_probe := 127 } "/mnt" "4.5.6" true false "/dev/sda5"
      (by decide) (by decide)).1,
   (C8_probe_failure_skips_updater (sampleHost ["IS_RECOVERY_INSTALL"] 5 false)
      { sampleAnswers 1 with system_probe := 127 } "/mnt" "4.5.6" true false "/dev/sda5"
      (by decide) (by decide)).2 (by decide)⟩

/-- C9: in a run whose commit succeeds and whose firmware step does not fail,
if `RemovePackFiles` or the `Touch` of the completion marker fails, the result
is failure in factory-install mode and success otherwise; outside factory
mode the result is the same whatever these two calls return. -/
theorem C9_postcommit_failure_is_fatal_in_factory_mode_only (h : Host) (a : Answers)
    (install_dir src_version : String) (firmware_update : Bool) (install_dev : String)
    (hcommit : commitOk h a src_version install_dev = true)
    (hfirmware : (!isFactoryInstall h && firmware_update) = true →
      (FirmwareUpdate h a install_dir (isUpdate h)).ret = true)
    (hfail : a.RemovePackFiles = false ∨ a.Touch_install_completed = false) :
    (isFactoryInstall h = true →
      (ChromeosChrootPostinst h a install_dir src_version firmware_update install_dev).ret =
        false) ∧
    (isFactoryInstall h = false →
      (ChromeosChrootPostinst h a install_dir src_version firmware_update install_dev).ret =
        true) ∧
    (isFactoryInstall h = false → ∀ packs marker : Bool,
      (ChromeosChrootPostinst h
        { a with RemovePackFiles := packs, Touch_install_completed := marker }
        install_dir src_version firmware_update install_dev).ret =
      (ChromeosChrootPostinst h a install_dir src_version firmware_update install_dev).ret) := by
  refine ⟨fun hf => ?_, fun hf => ?_, fun hf packs marker => ?_⟩
  · rw [ret_of_commitOk h a install_dir src_version firmware_update install_dev hcommit]
    rcases hfail with hp | ht
    · simp [hf, hp]
    · simp [hf, ht]
  · rw [ret_of_commitOk h a install_dir src_version firmware_update install_dev hcommit]
    cases hu : firmware_update
    · simp [hf]
    · have := hfirmware (by simp [hf, hu])
      simp [hf, this]
  · simp only [isFactoryInstall] at hf
    simp only [ChromeosChrootPostinst, emit_ret, ret_ite, returning_ret, FirmwareUpdate_ret, hf]
    simp

/-- C9, at two concrete inputs in which the completion marker cannot be
written: a factory install fails, a recovery install succeeds. -/
theorem C9_postcommit_failure_is_fatal_in_factory_mode_only_witness :
    (commitOk (sampleHost ["IS_FACTORY_INSTALL"] 3 false)
        { sampleAnswers 0 with Touch_install_completed := false } "4.5.6" "/dev/sda3" = true ∧
      isFactoryInstall (sampleHost ["IS_FACTORY_INSTALL"] 3 false) = true ∧
      (ChromeosChrootPostinst (sampleHost ["IS_FACTORY_INSTALL"] 3 false)
        { sampleAnswers 0 with Touch_install_completed := false } "/mnt" "4.5.6" true
        "/dev/sda3").ret = false) ∧
    (commitOk (sampleHost ["IS_RECOVERY_INSTALL"] 3 false)
        { sampleAnswers 0 with Touch_install_completed := false } "4.5.6" "/dev/sda3" = true ∧
      isFactoryInstall (sampleHost ["IS_RECOVERY_INSTALL"] 3 false) = false ∧
      (ChromeosChrootPostinst (sampleHost ["IS_RECOVERY_INSTALL"] 3 false)
        { sampleAnswers 0 with Touch_install_completed := false } "/mnt" "4.5.6" true
        "/dev/sda3").ret = true) :=
  ⟨⟨by decide, by decide,
    (C9_postcommit_failure_is_fatal_in_factory_mode_only
      (sampleHost ["IS_FACTORY_INSTALL"] 3 false)
      { sampleAnswers 0 with Touch_install_completed := false } "/mnt" "4.5.6" true
      "/dev/sda3" (by decide) (by decide) (Or.inr rfl)).1 (by decide)⟩,
   ⟨by decide, by decide,
    (C9_postcommit_failure_is_fatal_in_factory_mode_only
      (sampleHost ["IS_RECOVERY_INSTALL"] 3 false)
      { sampleAnswers 0 with Touch_install_completed := false } "/mnt" "4.5.6" true
      "/dev/sda3" (by decide) (by decide) (Or.inr rfl)).2.1 (by decide)⟩⟩

/-- C10: in factory-install mode, whatever the firmware-update flag, the other
mode flags and the answers of the collaborators, the trace has none of the
calls of `FirmwareUpdate` (no `access`, no `system`) and no revert call. -/
theorem C10_factory_mode_skips_firmware_update (h : Host) (a : Answers)
    (install_dir src_version : String) (firmware_update : Bool) (install_dev : String)
    (hfactory : isFactoryInstall h = true) :
    (ChromeosChrootPostinst h a install_dir src_version firmware_update
        install_dev).trace.filter isFirmwareCall = [] ∧
      noRevert (ChromeosChrootPostinst h a install_dir src_version firmware_update
        install_dev).trace = true := by
  simp only [isFactoryInstall] at hfactory
  simp only [ChromeosChrootPostinst, emit_trace, trace_ite, returning_trace, filter_ite,
    List.filter_append, List.filter_cons, List.filter_nil, noRevert,
    isFirmwareCall, isRevertOnly, isSetSuccessful, hfactory]
  simp only [Bool.not_true, Bool.false_and, Bool.and_true, Bool.false_eq_true, if_false,
    List.nil_append, List.filter_nil, List.append_nil, if_true, ite_self]
  constructor
  · simp
  · split_ifs <;> simp_all

/-- C10, at a concrete input: a factory install in which a firmware update is
requested and every call succeeds. -/
theorem C10_factory_mode_skips_firmware_update_witness :
    isFactoryInstall (sampleHost ["IS_FACTORY_INSTALL", "IS_INSTALL"] 5 false) = true ∧
    (ChromeosChrootPostinst (sampleHost ["IS_FACTORY_INSTALL", "IS_INSTALL"] 5 false)
      (sampleAnswers 1) "/mnt" "4.5.6" true "/dev/sda5").trace.filter isFirmwareCall = [] ∧
    noRevert (ChromeosChrootPostinst (sampleHost ["IS_FACTORY_INSTALL", "IS_INSTALL"] 5 false)
      (sampleAnswers 1) "/mnt" "4.5.6" true "/dev/sda5").trace = true :=
  ⟨by decide,
   C10_factory_mode_skips_firmware_update
     (sampleHost ["IS_FACTORY_INSTALL", "IS_INSTALL"] 5 false) (sampleAnswers 1) "/mnt" "4.5.6"
     true "/dev/sda5" (by decide)⟩

/-! ## Further lemmas -/

theorem isUpdate_iff (h : Host) :
    isUpdate h = true ↔
      h.getenv "IS_FACTORY_INSTALL" = none ∧ h.getenv "IS_RECOVERY_INSTALL" = none ∧
        h.getenv "IS_INSTALL" = none := by
  simp only [isUpdate, isFactoryInstall, isRecoveryInstall, isInstall]
  cases h.getenv "IS_FACTORY_INSTALL" <;> cases h.getenv "IS_RECOVERY_INSTALL" <;>
    cases h.getenv "IS_INSTALL" <;> simp

theorem FirmwareUpdate_patchCalls (h : Host) (a : Answers) (dir : String) (u : Bool) :
    (FirmwareUpdate h a dir u).trace.filter isPatchCall = [] := by
  simp [FirmwareUpdate, emit_trace, returning_trace, trace_ite, filter_ite, isPatchCall]

/-- The patch calls of a run with a valid partition. -/
theorem patchCalls_of_validPartition (h : Host) (a : Answers)
    (install_dir src_version : String) (firmware_update : Bool) (install_dev : String)
    (hvalid : validPartition h install_dev = true) :
    (ChromeosChrootPostinst h a install_dir src_version firmware_update
        install_dev).trace.filter isPatchCall =
      if patchRequired h src_version = true then
        [Call.R10FileSystemPatch install_dev a.R10FileSystemPatch] else [] := by
  simp only [validPartition, newPartNum, Bool.or_eq_true, decide_eq_true_eq] at hvalid
  simp only [patchRequired, isUpdate, isFactoryInstall, isRecoveryInstall, isInstall]
  by_cases hp : (!(h.getenv "IS_FACTORY_INSTALL").isSome &&
      !(h.getenv "IS_RECOVERY_INSTALL").isSome &&
      !(h.getenv "IS_INSTALL").isSome && h.VersionLess src_version "0.10.156.2") = true <;>
    simp only [ChromeosChrootPostinst, emit_trace, trace_ite, returning_trace, filter_ite,
      List.filter_append, List.filter_cons, List.filter_nil, isPatchCall,
      FirmwareUpdate_patchCalls, hvalid, hp] <;>
    simp

/-- The `system` calls of `FirmwareUpdate`. -/
theorem FirmwareUpdate_systemCalls (h : Host) (a : Answers) (dir : String) (u : Bool) :
    (FirmwareUpdate h a dir u).trace.filter isSystemCall =
      if a.access_updater ≠ 0 then []
      else if a.system_probe ≠ 0 then [Call.system (probeCommand dir) a.system_probe]
      else [Call.system (probeCommand dir) a.system_probe,
            Call.system (updaterCommand dir u) a.system_updater] := by
  by_cases h1 : a.access_updater = 0 <;> by_cases h2 : a.system_probe = 0 <;>
    simp [FirmwareUpdate, emit_trace, returning_trace, trace_ite, h1, h2, isSystemCall,
      probeCommand, updaterCommand]

theorem preCommitOk_iff (h : Host) (a : Answers) (src_version install_dev : String) :
    preCommitOk h a src_version install_dev = true ↔
      (h.GetPartitionFromPartitionDev install_dev = 3 ∨
          h.GetPartitionFromPartitionDev install_dev = 5) ∧
        ((patchRequired h src_version && !a.R10FileSystemPatch) = false) ∧
        a.SetImage = true := by
  cases hp : patchRequired h src_version <;> cases hq : a.R10FileSystemPatch <;>
    simp [preCommitOk, validPartition, newPartNum, and_assoc, hp, hq]

/-- A predicate that holds of no `printf`, `access` or `system` call holds of
no call of `FirmwareUpdate`. -/
theorem FirmwareUpdate_filter_nil (p : Call → Bool)
    (hp : ∀ c, isFirmwareCall c = true → p c = false) (hq : ∀ s, p (Call.printf s) = false)
    (h : Host) (a : Answers) (dir : String) (u : Bool) :
    (FirmwareUpdate h a dir u).trace.filter p = [] := by
  simp [FirmwareUpdate, emit_trace, returning_trace, trace_ite, filter_ite, List.filter_cons,
    hq, hp _ (show isFirmwareCall (Call.access _ _ _) = true from rfl),
    hp _ (show isFirmwareCall (Call.system _ _) = true from rfl)]

/-- A run that stops before the commit, with a valid partition or not: no
store call and no `MakeDeviceReadOnly` call. -/
theorem run_of_not_preCommitOk (h : Host) (a : Answers)
    (install_dir src_version : String) (firmware_update : Bool) (install_dev : String)
    (hpre : preCommitOk h a src_version install_dev = false) :
    storeCalls (ChromeosChrootPostinst h a install_dir src_version firmware_update
        install_dev).trace = [] ∧
      (ChromeosChrootPostinst h a install_dir src_version firmware_update
        install_dev).trace.filter isMakeReadOnly = [] ∧
      (validPartition h install_dev = true →
        (ChromeosChrootPostinst h a install_dir src_version firmware_update
          install_dev).ret = false) := by
  by_cases hv : h.GetPartitionFromPartitionDev install_dev = 3 ∨
      h.GetPartitionFromPartitionDev install_dev = 5
  · have hpi : ¬ ((patchRequired h src_version && !a.R10FileSystemPatch) = false ∧
        a.SetImage = true) := by
      intro hx
      have := (preCommitOk_iff h a src_version install_dev).2 ⟨hv, hx.1, hx.2⟩
      rw [hpre] at this
      exact Bool.false_ne_true this
    simp only [patchRequired, isUpdate, isFactoryInstall, isRecoveryInstall, isInstall,
      storeCalls] at hpi ⊢
    by_cases hp : (!(h.getenv "IS_FACTORY_INSTALL").isSome &&
        !(h.getenv "IS_RECOVERY_INSTALL").isSome &&
        !(h.getenv "IS_INSTALL").isSome && h.VersionLess src_version "0.10.156.2" &&
        !a.R10FileSystemPatch) = true
    · simp only [ChromeosChrootPostinst, emit_trace, emit_ret, ret_ite, returning_ret,
        trace_ite, returning_trace, filter_ite, List.filter_append, List.filter_cons,
        List.filter_nil, isStoreCall, isMakeReadOnly, hv, hp]
      simp
    · have hi : a.SetImage = false := by
        cases hq : a.SetImage
        · rfl
        · exact absurd ⟨by simpa using hp, hq⟩ hpi
      simp only [ChromeosChrootPostinst, emit_trace, emit_ret, ret_ite, returning_ret,
        trace_ite, returning_trace, filter_ite, List.filter_append, List.filter_cons,
        List.filter_nil, isStoreCall, isMakeReadOnly, hv, hp, hi]
      simp
  · have hv2 : validPartition h install_dev = false := by
      simpa [validPartition, newPartNum] using hv
    simp [ChromeosChrootPostinst, emit_trace, returning_trace, trace_ite, storeCalls, hv, hv2,
      isStoreCall, isMakeReadOnly]

/-- A run that reaches the commit and in which one of its four calls fails. -/
theorem run_of_storeCommit_failure (h : Host) (a : Answers)
    (install_dir src_version : String) (firmware_update : Bool) (install_dev : String)
    (hpre : preCommitOk h a src_version install_dev = true)
    (hfail : storeCommitOk h a = false) :
    (ChromeosChrootPostinst h a install_dir src_version firmware_update install_dev).ret =
        false ∧
      (ChromeosChrootPostinst h a install_dir src_version firmware_update
          install_dev).trace.filter isMakeReadOnly = [] ∧
      noRevert (ChromeosChrootPostinst h a install_dir src_version firmware_update
          install_dev).trace = true := by
  rw [preCommitOk_iff] at hpre
  obtain ⟨hv, hp, hi⟩ := hpre
  simp only [storeCommitOk, Bool.and_eq_false_iff, decide_eq_false_iff_not] at hfail
  simp only [patchRequired, isUpdate, isFactoryInstall, isRecoveryInstall, isInstall,
    noRevert] at hp ⊢
  simp only [ChromeosChrootPostinst, emit_trace, emit_ret, ret_ite, returning_ret, trace_ite,
    returning_trace, filter_ite, List.filter_append, List.filter_cons, List.filter_nil,
    isMakeReadOnly, isRevertOnly, isSetSuccessful, hv, hp, hi]
  by_cases h1 : a.Initialize = h.kCgptSuccess
  · by_cases h2 : a.SetHighestPriority = h.kCgptSuccess
    · by_cases h3 : a.SetSuccessful = h.kCgptSuccess
      · have h4 : a.SetNumTriesLeft ≠ h.kCgptSuccess := by tauto
        simp [h1, h2, h3, h4]
      · simp [h1, h2, h3]
    · simp [h1, h2]
  · simp [h1]

/-- A run whose commit does not succeed has no revert call and no
`MakeDeviceReadOnly` call, and fails when the partition is valid. -/
theorem run_of_not_commitOk (h : Host) (a : Answers)
    (install_dir src_version : String) (firmware_update : Bool) (install_dev : String)
    (hc : commitOk h a src_version install_dev = false) :
    noRevert (ChromeosChrootPostinst h a install_dir src_version firmware_update
        install_dev).trace = true ∧
      (ChromeosChrootPostinst h a install_dir src_version firmware_update
        install_dev).trace.filter isMakeReadOnly = [] ∧
      (validPartition h install_dev = true →
        (ChromeosChrootPostinst h a install_dir src_version firmware_update
          install_dev).ret = false) := by
  cases hpre : preCommitOk h a src_version install_dev
  · obtain ⟨h1, h2, h3⟩ := run_of_not_preCommitOk h a install_dir src_version firmware_update
      install_dev hpre
    refine ⟨?_, h2, h3⟩
    rw [← noRevert_storeCalls, h1]
    rfl
  · have hs : storeCommitOk h a = false := by
      simpa [commitOk, hpre] using hc
    obtain ⟨h1, h2, h3⟩ := run_of_storeCommit_failure h a install_dir src_version
      firmware_update install_dev hpre hs
    exact ⟨h3, h2, fun _ => h1⟩

/-- No set operation of a run targets a partition other than the new kernel
partition. -/
theorem targetsOther_nil (h : Host) (a : Answers)
    (install_dir src_version : String) (firmware_update : Bool) (install_dev : String) :
    (ChromeosChrootPostinst h a install_dir src_version firmware_update
        install_dev).trace.filter (targetsOther (newPartNum h install_dev - 1)) = [] := by
  have hfw := FirmwareUpdate_filter_nil (targetsOther (newPartNum h install_dev - 1))
    (by intro c hc; cases c <;> simp_all [isFirmwareCall, targetsOther, storeTarget])
    (by intro s; rfl) h a install_dir
  simp only [newPartNum] at hfw ⊢
  simp only [ChromeosChrootPostinst, emit_trace, trace_ite, returning_trace, filter_ite,
    List.filter_append, List.filter_cons, List.filter_nil, targetsOther, storeTarget, hfw]
  simp

/-- The line that names the boot slot is printed once the patch step is
passed. -/
theorem boot_slot_line (h : Host) (a : Answers)
    (install_dir src_version : String) (firmware_update : Bool) (install_dev : String)
    (n : Int) (slot : String)
    (hn : h.GetPartitionFromPartitionDev install_dev = n)
    (hslot : (if n = 3 then "A" else if n = 5 then "B" else "") = slot)
    (hv : n = 3 ∨ n = 5)
    (hp : (patchRequired h src_version && !a.R10FileSystemPatch) = false) :
    Call.printf ("Set boot target to " ++ install_dev ++ ": Partition " ++ fmtInt n ++
        ", Slot " ++ slot ++ "\n") ∈
      (ChromeosChrootPostinst h a install_dir src_version firmware_update
        install_dev).trace := by
  simp only [patchRequired, isUpdate, isFactoryInstall, isRecoveryInstall, isInstall] at hp
  simp only [ChromeosChrootPostinst, emit_trace, trace_ite, returning_trace, hn, hslot, hv, hp]
  simp

/-- The patch, store and `MakeDeviceReadOnly` calls of a run whose commit
succeeds. -/
theorem readOnly_of_commitOk (h : Host) (a : Answers) (install_dir src_version : String)
    (firmware_update : Bool) (install_dev : String)
    (hc : commitOk h a src_version install_dev = true) :
    (ChromeosChrootPostinst h a install_dir src_version firmware_update
        install_dev).trace.filter (fun c => isPatchCall c || isStoreCall c || isMakeReadOnly c) =
      (if patchRequired h src_version = true then
          [Call.R10FileSystemPatch install_dev true] else []) ++
        commitCalls h install_dev ++
        (if patchRequired h src_version = true then
          [Call.MakeDeviceReadOnly install_dev a.MakeDeviceReadOnly] else []) ++
        (if (!(isFactoryInstall h) && firmware_update &&
            !(FirmwareUpdate h a install_dir (isUpdate h)).ret) = true
          then revertCalls h a install_dev else []) := by
  have hfw := FirmwareUpdate_filter_nil
    (fun c => isPatchCall c || isStoreCall c || isMakeReadOnly c)
    (by intro c hc; cases c <;> simp_all [isFirmwareCall, isPatchCall, isStoreCall,
      isMakeReadOnly])
    (by intro s; rfl) h a install_dir
  rw [commitOk_iff] at hc
  obtain ⟨⟨hv, hp, hi⟩, h1, h2, h3, h4⟩ := hc
  simp only [patchRequired, isUpdate, isFactoryInstall, isRecoveryInstall, isInstall,
    commitCalls, revertCalls, newKernNum, newPartNum, rootDev] at hp ⊢
  simp only [ChromeosChrootPostinst, emit_trace, trace_ite, returning_trace, filter_ite,
    List.filter_append, hfw]
  simp only [List.filter_cons, List.filter_nil, isStoreCall, isPatchCall, isMakeReadOnly]
  simp only [hv, hi, h1, h2, h3, h4, hp]
  by_cases hq : (!(h.getenv "IS_FACTORY_INSTALL").isSome &&
      !(h.getenv "IS_RECOVERY_INSTALL").isSome &&
      !(h.getenv "IS_INSTALL").isSome && h.VersionLess src_version "0.10.156.2") = true
  · have hr : a.R10FileSystemPatch = true := by
      rw [hq] at hp; simpa using hp
    simp only [hq, hr]
    generalize (h.getenv "IS_FACTORY_INSTALL").isSome = F
    generalize a.RemovePackFiles = P
    generalize a.Touch_install_completed = T
    cases F <;> cases P <;> cases T <;> simp
  · simp only [hq]
    generalize (h.getenv "IS_FACTORY_INSTALL").isSome = F
    generalize a.RemovePackFiles = P
    generalize a.Touch_install_completed = T
    cases F <;> cases P <;> cases T <;> simp

/-- The result of a run does not depend on what `MakeDeviceReadOnly`
returns. -/
theorem ret_ignores_MakeDeviceReadOnly (h : Host) (a : Answers)
    (install_dir src_version : String) (firmware_update : Bool) (install_dev : String)
    (marked : Bool) :
    (ChromeosChrootPostinst h { a with MakeDeviceReadOnly := marked } install_dir src_version
        firmware_update install_dev).ret =
      (ChromeosChrootPostinst h a install_dir src_version firmware_update install_dev).ret := by
  simp only [ChromeosChrootPostinst, emit_ret, ret_ite, returning_ret, FirmwareUpdate_ret]

/-- A call that is not a store call leaves the store as it is. -/
theorem applyCall_of_not_storeCall (ok top : Int) (s : Int → Attributes) (c : Call)
    (hc : isStoreCall c = false) : applyCall ok top s c = s := by
  cases c <;> simp_all [applyCall, isStoreCall]

/-- The store after a trace is the store after its store calls. -/
theorem applyTrace_storeCalls (ok top : Int) (t : List Call) :
    ∀ s : Int → Attributes, applyTrace ok top s (storeCalls t) = applyTrace ok top s t := by
  induction t with
  | nil => intro s; rfl
  | cons c t ih =>
    intro s
    cases hc : isStoreCall c
    · have : storeCalls (c :: t) = storeCalls t := by simp [storeCalls, List.filter_cons, hc]
      rw [this, ih]
      simp only [applyTrace, List.foldl_cons, applyCall_of_not_storeCall ok top s c hc]
    · have : storeCalls (c :: t) = c :: storeCalls t := by
        simp [storeCalls, List.filter_cons, hc]
      rw [this]
      simp only [applyTrace, List.foldl_cons]
      exact ih _

/-- The store after the calls of a successful commit, made once or twice. -/
theorem applyTrace_commitCalls (h : Host) (install_dev : String) (top : Int)
    (s : Int → Attributes) :
    applyTrace h.kCgptSuccess top s (commitCalls h install_dev ++ commitCalls h install_dev) =
        applyTrace h.kCgptSuccess top s (commitCalls h install_dev) ∧
      applyTrace h.kCgptSuccess top s (commitCalls h install_dev) (newKernNum h install_dev) =
        ⟨top, !isUpdate h, 6⟩ ∧
      ∀ k, k ≠ newKernNum h install_dev →
        applyTrace h.kCgptSuccess top s (commitCalls h install_dev) k = s k := by
  refine ⟨?_, ?_, ?_⟩
  · funext k
    by_cases hk : k = newKernNum h install_dev <;>
      simp [applyTrace, commitCalls, applyCall, Function.update, hk]
  · simp [applyTrace, commitCalls, applyCall, Function.update]
  · intro k hk
    simp [applyTrace, commitCalls, applyCall, Function.update, hk]

theorem storeCallsFollow_append (l m : List Call) :
    ∀ i s : Bool, storeCallsFollow i s (l ++ m) =
      (storeCallsFollow i s l &&
        storeCallsFollow (i || l.any isSuccessfulImageInstall) (s || l.any isSync) m) := by
  induction l with
  | nil => intro i s; simp [storeCallsFollow]
  | cons c l ih =>
    intro i s
    simp [storeCallsFollow, ih, Bool.or_assoc, Bool.and_assoc]

theorem storeCallsFollow_ite (c : Prop) [Decidable c] (i s : Bool) (l m : List Call) :
    storeCallsFollow i s (if c then l else m) =
      if c then storeCallsFollow i s l else storeCallsFollow i s m := by
  split <;> rfl

theorem any_ite (p : Call → Bool) (c : Prop) [Decidable c] (l m : List Call) :
    (if c then l else m).any p = if c then l.any p else m.any p := by
  split <;> rfl

theorem storeCallsFollow_of_no_storeCall (l : List Call) :
    l.filter isStoreCall = [] → ∀ i s : Bool, storeCallsFollow i s l = true := by
  induction l with
  | nil => intro _ i s; rfl
  | cons c l ih =>
    intro hl i s
    cases hc : isStoreCall c
    · have hl2 : l.filter isStoreCall = [] := by simpa [List.filter_cons, hc] using hl
      simp [storeCallsFollow, hc, ih hl2]
    · simp [List.filter_cons, hc] at hl

/-- In every run each store call has a successful `SetImage` and a `sync`
before it. -/
theorem storeCallsFollow_run (h : Host) (a : Answers)
    (install_dir src_version : String) (firmware_update : Bool) (install_dev : String) :
    storeCallsFollow false false (ChromeosChrootPostinst h a install_dir src_version
      firmware_update install_dev).trace = true := by
  have hfw : ∀ i s u, storeCallsFollow i s (FirmwareUpdate h a install_dir u).trace = true :=
    fun i s u => storeCallsFollow_of_no_storeCall _ (FirmwareUpdate_storeCalls h a install_dir u)
      i s
  simp only [ChromeosChrootPostinst, emit_trace, trace_ite, returning_trace,
    storeCallsFollow_append, storeCallsFollow_ite, any_ite, hfw]
  cases a.SetImage <;>
    simp [storeCallsFollow, isStoreCall, isSuccessfulImageInstall, isSync]

theorem isSync_eq (c : Call) (hc : isSync c = true) : c = Call.sync := by
  cases c <;> first | rfl | exact absurd hc (by simp [isSync])

/-- What `storeCallsFollow` says of each store call of the trace. -/
theorem storeCallsFollow_sound (t : List Call) :
    ∀ i s : Bool, storeCallsFollow i s t = true →
      ∀ pre c post, t = pre ++ c :: post → isStoreCall c = true →
        (i = true ∨ ∃ e ∈ pre, isSuccessfulImageInstall e = true) ∧
          (s = true ∨ Call.sync ∈ pre) := by
  induction t with
  | nil =>
    intro i s _ pre c post ht
    simp at ht
  | cons x t ih =>
    intro i s hf pre c post ht hc
    simp only [storeCallsFollow, Bool.and_eq_true, Bool.or_eq_true, Bool.not_eq_true'] at hf
    cases pre with
    | nil =>
      simp only [List.nil_append, List.cons.injEq] at ht
      obtain ⟨hx, _⟩ := ht
      subst hx
      rcases hf.1 with hno | his
      · rw [hc] at hno; exact absurd hno (by decide)
      · exact ⟨Or.inl his.1, Or.inl his.2⟩
    | cons y pre =>
      simp only [List.cons_append, List.cons.injEq] at ht
      obtain ⟨hx, ht⟩ := ht
      subst hx
      obtain ⟨h1, h2⟩ := ih _ _ hf.2 pre c post ht hc
      constructor
      · rcases h1 with h1 | ⟨e, he, hok⟩
        · rw [Bool.or_eq_true] at h1
          rcases h1 with h1 | h1
          · exact Or.inl h1
          · exact Or.inr ⟨x, List.mem_cons_self _ _, h1⟩
        · exact Or.inr ⟨e, List.mem_cons_of_mem _ he, hok⟩
      · rcases h2 with h2 | h2
        · rw [Bool.or_eq_true] at h2
          rcases h2 with h2 | h2
          · exact Or.inl h2
          · right
            rw [isSync_eq x h2]
            exact List.mem_cons_self _ _
        · exact Or.inr (List.mem_cons_of_mem _ h2)

/-! ## The claims, continued -/

/-- C13: with a valid partition number the legacy patch `R10FileSystemPatch` is
called, once and on `install_dev`, exactly when the run is an update (none of
`IS_FACTORY_INSTALL`, `IS_RECOVERY_INSTALL`, `IS_INSTALL` is set) and
`VersionLess(src_version, "0.10.156.2")` holds; in factory, recovery and
interactive-install mode it is not called, whatever the source version. -/
theorem C13_patch_gate (h : Host) (a : Answers)
    (install_dir src_version : String) (firmware_update : Bool) (install_dev : String)
    (hvalid : validPartition h install_dev = true) :
    ((ChromeosChrootPostinst h a install_dir src_version firmware_update
          install_dev).trace.filter isPatchCall ≠ [] ↔
        (h.getenv "IS_FACTORY_INSTALL" = none ∧ h.getenv "IS_RECOVERY_INSTALL" = none ∧
          h.getenv "IS_INSTALL" = none) ∧
        h.VersionLess src_version "0.10.156.2" = true) ∧
    ((ChromeosChrootPostinst h a install_dir src_version firmware_update
          install_dev).trace.filter isPatchCall =
        if (isUpdate h && h.VersionLess src_version "0.10.156.2") = true then
          [Call.R10FileSystemPatch install_dev a.R10FileSystemPatch] else []) ∧
    (isFactoryInstall h = true ∨ isRecoveryInstall h = true ∨ isInstall h = true →
      (ChromeosChrootPostinst h a install_dir src_version firmware_update
          install_dev).trace.filter isPatchCall = []) := by
  have key := patchCalls_of_validPartition h a install_dir src_version firmware_update
    install_dev hvalid
  simp only [patchRequired] at key
  refine ⟨?_, key, fun hmode => ?_⟩
  · rw [key, ← isUpdate_iff]
    by_cases hp : (isUpdate h && h.VersionLess src_version "0.10.156.2") = true
    · simp only [hp, if_true]
      simpa using hp
    · simp only [hp, if_false]
      simpa using hp
  · rw [key]
    have hu : isUpdate h = false := by
      simp only [isUpdate]
      rcases hmode with hm | hm | hm <;> simp [hm]
    simp [hu]

/-- C13, at concrete inputs: an update from an old version calls the patch, a
recovery install from the same version does not. -/
theorem C13_patch_gate_witness :
    (validPartition (sampleHost [] 3 true) "/dev/sda3" = true ∧
      (ChromeosChrootPostinst (sampleHost [] 3 true) (sampleAnswers 0) "/mnt" "0.9" false
        "/dev/sda3").trace.filter isPatchCall = [Call.R10FileSystemPatch "/dev/sda3" true]) ∧
    (validPartition (sampleHost ["IS_RECOVERY_INSTALL"] 3 true) "/dev/sda3" = true ∧
      isRecoveryInstall (sampleHost ["IS_RECOVERY_INSTALL"] 3 true) = true ∧
      (ChromeosChrootPostinst (sampleHost ["IS_RECOVERY_INSTALL"] 3 true) (sampleAnswers 0)
        "/mnt" "0.9" false "/dev/sda3").trace.filter isPatchCall = []) :=
  ⟨⟨by decide,
    (C13_patch_gate (sampleHost [] 3 true) (sampleAnswers 0) "/mnt" "0.9" false "/dev/sda3"
      (by decide)).2.1⟩,
   ⟨by decide, by decide,
    (C13_patch_gate (sampleHost ["IS_RECOVERY_INSTALL"] 3 true) (sampleAnswers 0) "/mnt" "0.9"
      false "/dev/sda3" (by decide)).2.2 (Or.inr (Or.inl (by decide)))⟩⟩

/-- C14: the `system` calls of `FirmwareUpdate` are the probe and then, when
the updater is executable and the probe returns 0, the updater, run as
`<install_dir>/usr/sbin/chromeos-firmwareupdate --mode=autoupdate` when
`is_update` is true and with `--mode=recovery` when it is false; when
`ChromeosChrootPostinst` invokes the updater the mode is that of its own
`is_update`, which is true exactly when none of the three environment flags is
set. -/
theorem C14_updater_command (h : Host) (a : Answers)
    (install_dir src_version : String) (firmware_update is_update : Bool)
    (install_dev : String) :
    ((FirmwareUpdate h a install_dir is_update).trace.filter isSystemCall =
        if a.access_updater ≠ 0 then []
        else if a.system_probe ≠ 0 then
          [Call.system (install_dir ++ "/bin/sh -c exit") a.system_probe]
        else
          [Call.system (install_dir ++ "/bin/sh -c exit") a.system_probe,
           Call.system (updaterCommand install_dir is_update) a.system_updater]) ∧
    updaterCommand install_dir true =
      install_dir ++ "/usr/sbin/chromeos-firmwareupdate --mode=autoupdate" ∧
    updaterCommand install_dir false =
      install_dir ++ "/usr/sbin/chromeos-firmwareupdate --mode=recovery" ∧
    (updaterInvoked h a src_version firmware_update install_dev = true →
      (ChromeosChrootPostinst h a install_dir src_version firmware_update
          install_dev).trace.filter isSystemCall =
        [Call.system (install_dir ++ "/bin/sh -c exit") a.system_probe,
         Call.system (updaterCommand install_dir (isUpdate h)) a.system_updater]) ∧
    (isUpdate h = true ↔
      h.getenv "IS_FACTORY_INSTALL" = none ∧ h.getenv "IS_RECOVERY_INSTALL" = none ∧
        h.getenv "IS_INSTALL" = none) := by
  refine ⟨?_, ?_, ?_, fun hinv => ?_, isUpdate_iff h⟩
  · rw [FirmwareUpdate_systemCalls]; rfl
  · simp only [updaterCommand, String.append_assoc]; rfl
  · simp only [updaterCommand, String.append_assoc]; rfl
  · simp only [updaterInvoked, Bool.and_eq_true, decide_eq_true_eq] at hinv
    obtain ⟨⟨hreach, hpresent⟩, hprobe⟩ := hinv
    rw [systemCalls_of_firmwareStepReached h a install_dir src_version firmware_update
      install_dev hreach, FirmwareUpdate_systemCalls]
    simp [hpresent, hprobe, probeCommand]

/-- C14, at a concrete input: a recovery install on partition 5 whose updater
returns 0. -/
theorem C14_updater_command_witness :
    updaterInvoked (sampleHost ["IS_RECOVERY_INSTALL"] 5 false) (sampleAnswers 0) "4.5.6" true
      "/dev/sda5" = true ∧
    (ChromeosChrootPostinst (sampleHost ["IS_RECOVERY_INSTALL"] 5 false) (sampleAnswers 0)
      "/mnt" "4.5.6" true "/dev/sda5").trace.filter isSystemCall =
      [Call.system "/mnt/bin/sh -c exit" 0,
       Call.system "/mnt/usr/sbin/chromeos-firmwareupdate --mode=recovery" 0] :=
  ⟨by decide,
   (C14_updater_command (sampleHost ["IS_RECOVERY_INSTALL"] 5 false) (sampleAnswers 0) "/mnt"
      "4.5.6" true false "/dev/sda5").2.2.2.1 (by decide)⟩

/-- C16: when the value read for `CHROMEOS_RELEASE_VERSION` is empty,
`RunPostInstall` returns failure after reading it and printing a message,
without calling `ChromeosChrootPostinst`: no patch, image-install, store,
`access` or `system` call is made; otherwise it checks the tag file
`<install_dir>/root/.force_update_firmware` and its result and its further
calls are those of `ChromeosChrootPostinst` with the version read and with
`firmware_update` true exactly when `access` on the tag file returns 0. -/
theorem C16_RunPostInstall (h : Host) (a : Answers) (install_dir install_dev : String) :
    (a.LsbReleaseValue.isEmpty = true →
      (RunPostInstall h a install_dir install_dev).ret = false ∧
      (RunPostInstall h a install_dir install_dev).trace =
        [Call.printf ("RunPostInstall(" ++ install_dir ++ ", " ++ install_dev ++ ")\n"),
         Call.LsbReleaseValue "/etc/lsb-release" "CHROMEOS_RELEASE_VERSION" a.LsbReleaseValue,
         Call.printf "CHROMEOS_RELEASE_VERSION not found in /etc/lsb-release"] ∧
      (RunPostInstall h a install_dir install_dev).trace.filter
        (fun c => isStoreCall c || isPatchCall c || isImageInstallCall c ||
          isFirmwareCall c) = []) ∧
    (a.LsbReleaseValue.isEmpty = false →
      (RunPostInstall h a install_dir install_dev).ret =
        (ChromeosChrootPostinst h a install_dir a.LsbReleaseValue
          (decide (a.access_tag_file = 0)) install_dev).ret ∧
      (RunPostInstall h a install_dir install_dev).trace =
        [Call.printf ("RunPostInstall(" ++ install_dir ++ ", " ++ install_dev ++ ")\n"),
         Call.LsbReleaseValue "/etc/lsb-release" "CHROMEOS_RELEASE_VERSION" a.LsbReleaseValue,
         Call.access (install_dir ++ "/root/.force_update_firmware") 0 a.access_tag_file] ++
        (ChromeosChrootPostinst h a install_dir a.LsbReleaseValue
          (decide (a.access_tag_file = 0)) install_dev).trace) := by
  constructor
  · intro he
    simp [RunPostInstall, emit_ret, emit_trace, returning_ret, returning_trace, he,
      isStoreCall, isPatchCall, isImageInstallCall, isFirmwareCall]
  · intro he
    simp [RunPostInstall, emit_ret, emit_trace, he]

/-- C16, at concrete inputs: an empty version, and the version "4.5.6" with
the tag file absent. -/
theorem C16_RunPostInstall_witness :
    (({ sampleAnswers 0 with LsbReleaseValue := "" } : Answers).LsbReleaseValue.isEmpty = true ∧
      (RunPostInstall (sampleHost [] 3 false) { sampleAnswers 0 with LsbReleaseValue := "" }
        "/mnt" "/dev/sda3").ret = false) ∧
    (({ sampleAnswers 1 with access_tag_file := -1 } : Answers).LsbReleaseValue.isEmpty =
        false ∧
      (RunPostInstall (sampleHost [] 3 false) { sampleAnswers 1 with access_tag_file := -1 }
        "/mnt" "/dev/sda3").ret =
        (ChromeosChrootPostinst (sampleHost [] 3 false)
          { sampleAnswers 1 with access_tag_file := -1 } "/mnt" "4.5.6" false
          "/dev/sda3").ret ∧
      (RunPostInstall (sampleHost [] 3 false) { sampleAnswers 1 with access_tag_file := -1 }
        "/mnt" "/dev/sda3").ret = true) :=
  ⟨⟨by decide,
    ((C16_RunPostInstall (sampleHost [] 3 false) { sampleAnswers 0 with LsbReleaseValue := "" }
      "/mnt" "/dev/sda3").1 (by decide)).1⟩,
   ⟨by decide,
    ((C16_RunPostInstall (sampleHost [] 3 false) { sampleAnswers 1 with access_tag_file := -1 }
      "/mnt" "/dev/sda3").2 (by decide)).1,
    by decide⟩⟩

/-- C15: when the commit step is reached and one of its store calls fails
(`Initialize`, `SetHighestPriority`, `SetSuccessful` or `SetNumTriesLeft`),
`ChromeosChrootPostinst` returns failure; its store calls are those of the
commit up to and including the first that fails, so that no later store call
and no revert is made; and it makes no `RemovePackFiles` call, no `Touch` but
that of `.nodelta`, no `MakeDeviceReadOnly` call and none of the calls of the
firmware updater. -/
theorem C15_commit_failure_aborts (h : Host) (a : Answers)
    (install_dir src_version : String) (firmware_update : Bool) (install_dev : String)
    (hpre : preCommitOk h a src_version install_dev = true)
    (hfail : storeCommitOk h a = false) :
    (ChromeosChrootPostinst h a install_dir src_version firmware_update install_dev).ret =
        false ∧
      (a.Initialize ≠ h.kCgptSuccess →
        storeCalls (ChromeosChrootPostinst h a install_dir src_version firmware_update
          install_dev).trace = (commitAttempt h a install_dev).take 1) ∧
      (a.Initialize = h.kCgptSuccess → a.SetHighestPriority ≠ h.kCgptSuccess →
        storeCalls (ChromeosChrootPostinst h a install_dir src_version firmware_update
          install_dev).trace = (commitAttempt h a install_dev).take 2) ∧
      (a.Initialize = h.kCgptSuccess → a.SetHighestPriority = h.kCgptSuccess →
        a.SetSuccessful ≠ h.kCgptSuccess →
        storeCalls (ChromeosChrootPostinst h a install_dir src_version firmware_update
          install_dev).trace = (commitAttempt h a install_dev).take 3) ∧
      (a.Initialize = h.kCgptSuccess → a.SetHighestPriority = h.kCgptSuccess →
        a.SetSuccessful = h.kCgptSuccess →
        storeCalls (ChromeosChrootPostinst h a install_dir src_version firmware_update
          install_dev).trace = commitAttempt h a install_dev) ∧
      noRevert (ChromeosChrootPostinst h a install_dir src_version firmware_update
          install_dev).trace = true ∧
      (ChromeosChrootPostinst h a install_dir src_version firmware_update
          install_dev).trace.filter isFirmwareCall = [] ∧
      (ChromeosChrootPostinst h a install_dir src_version firmware_update
          install_dev).trace.filter isRemovePackFiles = [] ∧
      (ChromeosChrootPostinst h a install_dir src_version firmware_update
          install_dev).trace.filter isMakeReadOnly = [] ∧
      (ChromeosChrootPostinst h a install_dir src_version firmware_update
          install_dev).trace.filter isTouch =
        [Call.Touch (install_dir ++ "/.nodelta") a.Touch_nodelta] := by
  rw [preCommitOk_iff] at hpre
  obtain ⟨hv, hp, hi⟩ := hpre
  simp only [storeCommitOk, Bool.and_eq_false_iff, decide_eq_false_iff_not] at hfail
  simp only [patchRequired, isUpdate, isFactoryInstall, isRecoveryInstall, isInstall,
    commitAttempt, newKernNum, newPartNum, rootDev, storeCalls, noRevert] at hp ⊢
  simp only [ChromeosChrootPostinst, emit_trace, emit_ret, ret_ite, returning_ret, trace_ite,
    returning_trace, filter_ite, List.filter_append, List.filter_cons, List.filter_nil,
    isStoreCall, isFirmwareCall, isRemovePackFiles, isMakeReadOnly, isTouch, isRevertOnly,
    isSetSuccessful, hv, hp, hi]
  by_cases h1 : a.Initialize = h.kCgptSuccess
  · by_cases h2 : a.SetHighestPriority = h.kCgptSuccess
    · by_cases h3 : a.SetSuccessful = h.kCgptSuccess
      · have h4 : a.SetNumTriesLeft ≠ h.kCgptSuccess := by tauto
        simp [h1, h2, h3, h4]
      · simp [h1, h2, h3]
    · simp [h1, h2]
  · simp [h1]

/-- C15, at a concrete input: an interactive install on partition 3 in which
`SetSuccessful` fails with code 2. -/
theorem C15_commit_failure_aborts_witness :
    preCommitOk (sampleHost ["IS_INSTALL"] 3 false) { sampleAnswers 1 with SetSuccessful := 2 }
      "4.5.6" "/dev/sda3" = true ∧
    storeCommitOk (sampleHost ["IS_INSTALL"] 3 false)
      { sampleAnswers 1 with SetSuccessful := 2 } = false ∧
    (ChromeosChrootPostinst (sampleHost ["IS_INSTALL"] 3 false)
      { sampleAnswers 1 with SetSuccessful := 2 } "/mnt" "4.5.6" true "/dev/sda3").ret =
      false ∧
    storeCalls (ChromeosChrootPostinst (sampleHost ["IS_INSTALL"] 3 false)
      { sampleAnswers 1 with SetSuccessful := 2 } "/mnt" "4.5.6" true "/dev/sda3").trace =
      [Call.Initialize "/dev/sda" 0, Call.SetHighestPriority 2 0,
       Call.SetSuccessful 2 true 2] ∧
    (ChromeosChrootPostinst (sampleHost ["IS_INSTALL"] 3 false)
      { sampleAnswers 1 with SetSuccessful := 2 } "/mnt" "4.5.6" true
      "/dev/sda3").trace.filter isFirmwareCall = [] :=
  ⟨by decide, by decide,
   (C15_commit_failure_aborts (sampleHost ["IS_INSTALL"] 3 false)
      { sampleAnswers 1 with SetSuccessful := 2 } "/mnt" "4.5.6" true "/dev/sda3"
      (by decide) (by decide)).1,
   (C15_commit_failure_aborts (sampleHost ["IS_INSTALL"] 3 false)
      { sampleAnswers 1 with SetSuccessful := 2 } "/mnt" "4.5.6" true "/dev/sda3"
      (by decide) (by decide)).2.2.2.1 (by decide) (by decide) (by decide),
   (C15_commit_failure_aborts (sampleHost ["IS_INSTALL"] 3 false)
      { sampleAnswers 1 with SetSuccessful := 2 } "/mnt" "4.5.6" true "/dev/sda3"
      (by decide) (by decide)).2.2.2.2.2.2.1⟩

/-- C19: for a valid partition number, whenever `ChromeosChrootPostinst`
returns success its store calls are, in this order and each once and each
returning `kCgptSuccess`, `Initialize`, `SetHighestPriority(k)`,
`SetSuccessful(k, !is_update)` and `SetNumTriesLeft(k, 6)` with `k` the target
partition minus one, and the trace has no revert call. -/
theorem C19_success_means_committed (h : Host) (a : Answers)
    (install_dir src_version : String) (firmware_update : Bool) (install_dev : String)
    (hvalid : validPartition h install_dev = true)
    (hret : (ChromeosChrootPostinst h a install_dir src_version firmware_update
      install_dev).ret = true) :
    storeCalls (ChromeosChrootPostinst h a install_dir src_version firmware_update
        install_dev).trace =
      [Call.Initialize (rootDev h install_dev) h.kCgptSuccess,
       Call.SetHighestPriority (newPartNum h install_dev - 1) h.kCgptSuccess,
       Call.SetSuccessful (newPartNum h install_dev - 1) (!isUpdate h) h.kCgptSuccess,
       Call.SetNumTriesLeft (newPartNum h install_dev - 1) 6 h.kCgptSuccess] ∧
    noRevert (ChromeosChrootPostinst h a install_dir src_version firmware_update
        install_dev).trace = true := by
  cases hc : commitOk h a src_version install_dev
  · have := (run_of_not_commitOk h a install_dir src_version firmware_update install_dev
      hc).2.2 hvalid
    rw [this] at hret
    exact absurd hret Bool.false_ne_true
  · have hr := ret_of_commitOk h a install_dir src_version firmware_update install_dev hc
    rw [hret] at hr
    have hno : (!(isFactoryInstall h) && firmware_update &&
        !(FirmwareUpdate h a install_dir (isUpdate h)).ret) = false := by
      cases hx : (!(isFactoryInstall h) && firmware_update &&
        !(FirmwareUpdate h a install_dir (isUpdate h)).ret)
      · rfl
      · rw [hx] at hr; simp at hr
    have hst := storeCalls_of_commitOk h a install_dir src_version firmware_update
      install_dev hc
    rw [hno] at hst
    simp only [Bool.false_eq_true, if_false, List.append_nil] at hst
    refine ⟨by rw [hst]; rfl, ?_⟩
    rw [← noRevert_storeCalls, hst, noRevert_commitCalls]

/-- C19, at a concrete input: a successful update on partition 5. -/
theorem C19_success_means_committed_witness :
    validPartition (sampleHost [] 5 false) "/dev/sda5" = true ∧
    (ChromeosChrootPostinst (sampleHost [] 5 false) (sampleAnswers 0) "/mnt" "4.5.6" true
      "/dev/sda5").ret = true ∧
    storeCalls (ChromeosChrootPostinst (sampleHost [] 5 false) (sampleAnswers 0) "/mnt" "4.5.6"
      true "/dev/sda5").trace =
      [Call.Initialize "/dev/sda" 0, Call.SetHighestPriority 4 0,
       Call.SetSuccessful 4 false 0, Call.SetNumTriesLeft 4 6 0] ∧
    noRevert (ChromeosChrootPostinst (sampleHost [] 5 false) (sampleAnswers 0) "/mnt" "4.5.6"
      true "/dev/sda5").trace = true :=
  ⟨by decide, by decide,
   C19_success_means_committed (sampleHost [] 5 false) (sampleAnswers 0) "/mnt" "4.5.6" true
     "/dev/sda5" (by decide) (by decide)⟩

/-- C20: the trace has a revert call exactly when the updater is invoked (the
commit succeeded, the mode is not factory-install, a firmware update is
requested, the updater is executable and the probe returns 0) and returns a
non-zero status; the store calls are then the commit followed by the three
revert calls, and in every other run no revert call is in the trace. -/
theorem C20_revert_only_after_updater_failure (h : Host) (a : Answers)
    (install_dir src_version : String) (firmware_update : Bool) (install_dev : String) :
    (noRevert (ChromeosChrootPostinst h a install_dir src_version firmware_update
          install_dev).trace = false ↔
        (updaterInvoked h a src_version firmware_update install_dev = true ∧
          a.system_updater ≠ 0)) ∧
    ((updaterInvoked h a src_version firmware_update install_dev = true ∧
          a.system_updater ≠ 0) →
        storeCalls (ChromeosChrootPostinst h a install_dir src_version firmware_update
          install_dev).trace = commitCalls h install_dev ++ revertCalls h a install_dev) ∧
    (¬ (updaterInvoked h a src_version firmware_update install_dev = true ∧
          a.system_updater ≠ 0) →
        (ChromeosChrootPostinst h a install_dir src_version firmware_update
          install_dev).trace.filter isRevertOnly = [] ∧
        ((ChromeosChrootPostinst h a install_dir src_version firmware_update
          install_dev).trace.filter isSetSuccessful).length ≤ 1) := by
  have hrev : ∀ x, noRevert (commitCalls h install_dev ++ revertCalls h a x) = false := by
    intro x
    simp [noRevert, commitCalls, revertCalls, List.filter_cons, isRevertOnly, isSetSuccessful]
  have key : noRevert (ChromeosChrootPostinst h a install_dir src_version firmware_update
        install_dev).trace = false ↔
      (updaterInvoked h a src_version firmware_update install_dev = true ∧
        a.system_updater ≠ 0) := by
    cases hc : commitOk h a src_version install_dev
    · have h1 := (run_of_not_commitOk h a install_dir src_version firmware_update install_dev
        hc).1
      simp [h1, updaterInvoked, firmwareStepReached, hc]
    · have hst := storeCalls_of_commitOk h a install_dir src_version firmware_update
        install_dev hc
      rw [← noRevert_storeCalls, hst, FirmwareUpdate_ret]
      simp only [updaterInvoked, firmwareStepReached, hc]
      by_cases hf : isFactoryInstall h = true <;> by_cases hu : firmware_update = true <;>
        by_cases h1 : a.access_updater = 0 <;> by_cases h2 : a.system_probe = 0 <;>
        by_cases h3 : a.system_updater = 0 <;>
        simp [hf, hu, h1, h2, h3, hrev, noRevert_commitCalls]
  refine ⟨key, fun hx => ?_, fun hx => ?_⟩
  · obtain ⟨hinv, hst⟩ := hx
    simp only [updaterInvoked, firmwareStepReached, Bool.and_eq_true, Bool.not_eq_true',
      decide_eq_true_eq] at hinv
    obtain ⟨⟨⟨⟨hc, hf⟩, hu⟩, h1⟩, h2⟩ := hinv
    rw [storeCalls_of_commitOk h a install_dir src_version firmware_update install_dev hc,
      FirmwareUpdate_ret]
    simp [hf, hu, h1, h2, hst]
  · have hn : noRevert (ChromeosChrootPostinst h a install_dir src_version firmware_update
        install_dev).trace = true := by
      cases hq : noRevert (ChromeosChrootPostinst h a install_dir src_version firmware_update
        install_dev).trace
      · exact absurd (key.1 hq) hx
      · rfl
    simpa [noRevert] using hn

/-- C11: over a store whose operations succeed and are absolute sets, in a run
whose commit succeeds and is not rolled back, making the calls of the run
twice leaves the store that making them once leaves; for the new kernel
partition that is the maximal priority, `successful = !is_update` and 6 tries
left, and no other partition is changed.  The same holds of the four calls of
the commit taken alone, whether or not a rollback follows them. -/
theorem C11_commit_twice_is_commit_once (h : Host) (a : Answers)
    (install_dir src_version : String) (firmware_update : Bool) (install_dev : String)
    (top : Int) (s : Int → Attributes)
    (hcommit : commitOk h a src_version install_dev = true) :
    (applyTrace h.kCgptSuccess top s
          ((storeCalls (ChromeosChrootPostinst h a install_dir src_version firmware_update
              install_dev).trace).take 4 ++
            (storeCalls (ChromeosChrootPostinst h a install_dir src_version firmware_update
              install_dev).trace).take 4) =
        applyTrace h.kCgptSuccess top s
          ((storeCalls (ChromeosChrootPostinst h a install_dir src_version firmware_update
              install_dev).trace).take 4) ∧
      applyTrace h.kCgptSuccess top s
          ((storeCalls (ChromeosChrootPostinst h a install_dir src_version firmware_update
              install_dev).trace).take 4) (newKernNum h install_dev) =
        ⟨top, !isUpdate h, 6⟩) ∧
    (((!isFactoryInstall h && firmware_update) = true →
        (FirmwareUpdate h a install_dir (isUpdate h)).ret = true) →
      applyTrace h.kCgptSuccess top s
          ((ChromeosChrootPostinst h a install_dir src_version firmware_update
              install_dev).trace ++
            (ChromeosChrootPostinst h a install_dir src_version firmware_update
              install_dev).trace) =
        applyTrace h.kCgptSuccess top s
          (ChromeosChrootPostinst h a install_dir src_version firmware_update
            install_dev).trace ∧
      applyTrace h.kCgptSuccess top s
          (ChromeosChrootPostinst h a install_dir src_version firmware_update
            install_dev).trace (newKernNum h install_dev) = ⟨top, !isUpdate h, 6⟩ ∧
      ∀ k, k ≠ newKernNum h install_dev →
        applyTrace h.kCgptSuccess top s
          (ChromeosChrootPostinst h a install_dir src_version firmware_update
            install_dev).trace k = s k) := by
  have hst := storeCalls_of_commitOk h a install_dir src_version firmware_update install_dev
    hcommit
  obtain ⟨hc1, hc2, hc3⟩ := applyTrace_commitCalls h install_dev top s
  constructor
  · have htake : (storeCalls (ChromeosChrootPostinst h a install_dir src_version
        firmware_update install_dev).trace).take 4 = commitCalls h install_dev := by
      rw [hst]; simp [commitCalls]
    rw [htake]
    exact ⟨hc1, hc2⟩
  · intro hfirmware
    have hno : (!(isFactoryInstall h) && firmware_update &&
        !(FirmwareUpdate h a install_dir (isUpdate h)).ret) = false := by
      cases hx : (!(isFactoryInstall h) && firmware_update)
      · simp
      · simp [hfirmware hx]
    rw [hno] at hst
    simp only [Bool.false_eq_true, if_false, List.append_nil] at hst
    have hdouble : storeCalls ((ChromeosChrootPostinst h a install_dir src_version
          firmware_update install_dev).trace ++
        (ChromeosChrootPostinst h a install_dir src_version firmware_update
          install_dev).trace) = commitCalls h install_dev ++ commitCalls h install_dev := by
      simp only [storeCalls, List.filter_append] at hst ⊢
      rw [hst]
    refine ⟨?_, ?_, ?_⟩
    · rw [← applyTrace_storeCalls, hdouble, hc1, ← hst, applyTrace_storeCalls]
    · rw [← applyTrace_storeCalls, hst]; exact hc2
    · intro k hk
      rw [← applyTrace_storeCalls, hst]; exact hc3 k hk

/-- C11, at a concrete input: an update on partition 3 over a store in which
every partition starts with priority 1, not successful, no tries left, and the
maximal priority is 15. -/
theorem C11_commit_twice_is_commit_once_witness :
    commitOk (sampleHost [] 3 false) (sampleAnswers 0) "4.5.6" "/dev/sda3" = true ∧
    ((!isFactoryInstall (sampleHost [] 3 false) && true) = true →
      (FirmwareUpdate (sampleHost [] 3 false) (sampleAnswers 0) "/mnt"
        (isUpdate (sampleHost [] 3 false))).ret = true) ∧
    applyTrace 0 15 (fun _ => ⟨1, false, 0⟩)
        ((ChromeosChrootPostinst (sampleHost [] 3 false) (sampleAnswers 0) "/mnt" "4.5.6" true
            "/dev/sda3").trace ++
          (ChromeosChrootPostinst (sampleHost [] 3 false) (sampleAnswers 0) "/mnt" "4.5.6" true
            "/dev/sda3").trace) =
      applyTrace 0 15 (fun _ => ⟨1, false, 0⟩)
        (ChromeosChrootPostinst (sampleHost [] 3 false) (sampleAnswers 0) "/mnt" "4.5.6" true
          "/dev/sda3").trace ∧
    applyTrace 0 15 (fun _ => ⟨1, false, 0⟩)
        (ChromeosChrootPostinst (sampleHost [] 3 false) (sampleAnswers 0) "/mnt" "4.5.6" true
          "/dev/sda3").trace 2 = ⟨15, false, 6⟩ ∧
    applyTrace 0 15 (fun _ => ⟨1, false, 0⟩)
        ((ChromeosChrootPostinst (sampleHost [] 3 false) (sampleAnswers 0) "/mnt" "4.5.6" true
            "/dev/sda3").trace ++
          (ChromeosChrootPostinst (sampleHost [] 3 false) (sampleAnswers 0) "/mnt" "4.5.6" true
            "/dev/sda3").trace) 2 = ⟨15, false, 6⟩ :=
  ⟨by decide, by decide,
   ((C11_commit_twice_is_commit_once (sampleHost [] 3 false) (sampleAnswers 0) "/mnt" "4.5.6"
      true "/dev/sda3" 15 (fun _ => ⟨1, false, 0⟩) (by decide)).2 (by decide)).1,
   ((C11_commit_twice_is_commit_once (sampleHost [] 3 false) (sampleAnswers 0) "/mnt" "4.5.6"
      true "/dev/sda3" 15 (fun _ => ⟨1, false, 0⟩) (by decide)).2 (by decide)).2.1,
   by decide⟩

/-- C12: every set operation on the store, of the commit and of the rollback
alike, targets the partition `target - 1`: partition 2 for target root
partition 3, partition 4 for target root partition 5, never another one; and
the line that announces the boot target names slot "A" for partition 3 and
slot "B" for partition 5. -/
theorem C12_store_calls_target_new_kernel (h : Host) (a : Answers)
    (install_dir src_version : String) (firmware_update : Bool) (install_dev : String) :
    (∀ c ∈ (ChromeosChrootPostinst h a install_dir src_version firmware_update
          install_dev).trace,
        ∀ k, storeTarget c = some k → k = newPartNum h install_dev - 1) ∧
    (newPartNum h install_dev = 3 →
      (∀ c ∈ (ChromeosChrootPostinst h a install_dir src_version firmware_update
            install_dev).trace,
          ∀ k, storeTarget c = some k → k = 2) ∧
      ((patchRequired h src_version && !a.R10FileSystemPatch) = false →
        Call.printf ("Set boot target to " ++ install_dev ++ ": Partition " ++ fmtInt 3 ++
            ", Slot " ++ "A" ++ "\n") ∈
          (ChromeosChrootPostinst h a install_dir src_version firmware_update
            install_dev).trace)) ∧
    (newPartNum h install_dev = 5 →
      (∀ c ∈ (ChromeosChrootPostinst h a install_dir src_version firmware_update
            install_dev).trace,
          ∀ k, storeTarget c = some k → k = 4) ∧
      ((patchRequired h src_version && !a.R10FileSystemPatch) = false →
        Call.printf ("Set boot target to " ++ install_dev ++ ": Partition " ++ fmtInt 5 ++
            ", Slot " ++ "B" ++ "\n") ∈
          (ChromeosChrootPostinst h a install_dir src_version firmware_update
            install_dev).trace)) := by
  have key : ∀ c ∈ (ChromeosChrootPostinst h a install_dir src_version firmware_update
        install_dev).trace,
      ∀ k, storeTarget c = some k → k = newPartNum h install_dev - 1 := by
    intro c hc k hk
    by_contra hne
    have hmem : c ∈ (ChromeosChrootPostinst h a install_dir src_version firmware_update
        install_dev).trace.filter (targetsOther (newPartNum h install_dev - 1)) :=
      List.mem_filter.2 ⟨hc, by simp [targetsOther, hk, hne]⟩
    rw [targetsOther_nil] at hmem
    exact absurd hmem (List.not_mem_nil c)
  refine ⟨key, fun h3 => ⟨fun c hc k hk => ?_, fun hp => ?_⟩,
    fun h5 => ⟨fun c hc k hk => ?_, fun hp => ?_⟩⟩
  · have := key c hc k hk
    rw [h3] at this
    simpa using this
  · exact boot_slot_line h a install_dir src_version firmware_update install_dev 3 "A" h3 rfl
      (Or.inl rfl) hp
  · have := key c hc k hk
    rw [h5] at this
    simpa using this
  · exact boot_slot_line h a install_dir src_version firmware_update install_dev 5 "B" h5 rfl
      (Or.inr rfl) hp

/-- C12, at a concrete input: a recovery install on partition 5 whose updater
fails, so that commit and rollback both call the store. -/
theorem C12_store_calls_target_new_kernel_witness :
    newPartNum (sampleHost ["IS_RECOVERY_INSTALL"] 5 false) "/dev/sda5" = 5 ∧
    (patchRequired (sampleHost ["IS_RECOVERY_INSTALL"] 5 false) "4.5.6" &&
      !(sampleAnswers 1).R10FileSystemPatch) = false ∧
    (∀ c ∈ (ChromeosChrootPostinst (sampleHost ["IS_RECOVERY_INSTALL"] 5 false)
          (sampleAnswers 1) "/mnt" "4.5.6" true "/dev/sda5").trace,
        ∀ k, storeTarget c = some k → k = 4) ∧
    Call.printf "Set boot target to /dev/sda5: Partition 5, Slot B\n" ∈
      (ChromeosChrootPostinst (sampleHost ["IS_RECOVERY_INSTALL"] 5 false) (sampleAnswers 1)
        "/mnt" "4.5.6" true "/dev/sda5").trace ∧
    (ChromeosChrootPostinst (sampleHost ["IS_RECOVERY_INSTALL"] 5 false) (sampleAnswers 1)
        "/mnt" "4.5.6" true "/dev/sda5").trace.filterMap storeTarget = [4, 4, 4, 4, 4, 4] :=
  ⟨by decide, by decide,
   ((C12_store_calls_target_new_kernel (sampleHost ["IS_RECOVERY_INSTALL"] 5 false)
      (sampleAnswers 1) "/mnt" "4.5.6" true "/dev/sda5").2.2 (by decide)).1,
   ((C12_store_calls_target_new_kernel (sampleHost ["IS_RECOVERY_INSTALL"] 5 false)
      (sampleAnswers 1) "/mnt" "4.5.6" true "/dev/sda5").2.2 (by decide)).2 (by decide),
   by decide⟩

/-- C17: in every run, each attribute-store call (`Initialize` and the set
operations) comes after a `SetImage` call that returned success and after the
`sync` call: both are in the part of the trace that precedes it. -/
theorem C17_store_calls_follow_sync (h : Host) (a : Answers)
    (install_dir src_version : String) (firmware_update : Bool) (install_dev : String)
    (pre post : List Call) (c : Call)
    (hsplit : (ChromeosChrootPostinst h a install_dir src_version firmware_update
      install_dev).trace = pre ++ c :: post)
    (hstore : isStoreCall c = true) :
    (∃ e ∈ pre, isSuccessfulImageInstall e = true) ∧ Call.sync ∈ pre := by
  obtain ⟨h1, h2⟩ := storeCallsFollow_sound _ false false
    (storeCallsFollow_run h a install_dir src_version firmware_update install_dev)
    pre c post hsplit hstore
  constructor
  · rcases h1 with h1 | h1
    · exact absurd h1 (by decide)
    · exact h1
  · rcases h2 with h2 | h2
    · exact absurd h2 (by decide)
    · exact h2

/-- C17, at a concrete input: the `Initialize` call of a factory install on
partition 3, with the calls before it and the calls after it. -/
theorem C17_store_calls_follow_sync_witness :
    (ChromeosChrootPostinst (sampleHost ["IS_FACTORY_INSTALL"] 3 false) (sampleAnswers 0) "/mnt"
        "4.5.6" false "/dev/sda3").trace =
      sampleBeforeInitialize ++ Call.Initialize "/dev/sda" 0 :: sampleAfterInitialize ∧
    isStoreCall (Call.Initialize "/dev/sda" 0) = true ∧
    ((∃ e ∈ sampleBeforeInitialize, isSuccessfulImageInstall e = true) ∧
      Call.sync ∈ sampleBeforeInitialize) :=
  ⟨by decide, by decide,
   C17_store_calls_follow_sync (sampleHost ["IS_FACTORY_INSTALL"] 3 false) (sampleAnswers 0)
     "/mnt" "4.5.6" false "/dev/sda3" sampleBeforeInitialize sampleAfterInitialize
     (Call.Initialize "/dev/sda" 0) (by decide) (by decide)⟩

/-- C18 (as stated it fails): in an update from an old version on partition 3
the legacy patch runs and succeeds, `SetImage` then fails, and the run ends
without any `MakeDeviceReadOnly` call. -/
theorem C18_patch_without_read_only_counterexample :
    (ChromeosChrootPostinst (sampleHost [] 3 true) { sampleAnswers 0 with SetImage := false }
        "/mnt" "0.9" false "/dev/sda3").trace.filter isSuccessfulPatch =
      [Call.R10FileSystemPatch "/dev/sda3" true] ∧
    (ChromeosChrootPostinst (sampleHost [] 3 true) { sampleAnswers 0 with SetImage := false }
        "/mnt" "0.9" false "/dev/sda3").trace.filter isMakeReadOnly = [] ∧
    (ChromeosChrootPostinst (sampleHost [] 3 true) { sampleAnswers 0 with SetImage := false }
        "/mnt" "0.9" false "/dev/sda3").ret = false := by
  decide

/-- C18 (amended): `MakeDeviceReadOnly` is called, once and on `install_dev`,
exactly in the runs in which the legacy patch is run and every step through the
attribute commit succeeds; it is then called after the patch and after the four
store calls of the commit, and before any revert; in every other run, also one
in which the patch succeeded and `SetImage` or a store call of the commit
failed, it is not called.  Whatever it returns, the result of the run is the
same. -/
theorem C18_read_only_after_patch_and_commit (h : Host) (a : Answers)
    (install_dir src_version : String) (firmware_update : Bool) (install_dev : String) :
    ((ChromeosChrootPostinst h a install_dir src_version firmware_update
          install_dev).trace.filter isMakeReadOnly =
        if (patchRequired h src_version && commitOk h a src_version install_dev) = true then
          [Call.MakeDeviceReadOnly install_dev a.MakeDeviceReadOnly] else []) ∧
    (patchRequired h src_version = true → commitOk h a src_version install_dev = true →
      (ChromeosChrootPostinst h a install_dir src_version firmware_update
          install_dev).trace.filter
            (fun c => isPatchCall c || isStoreCall c || isMakeReadOnly c) =
        [Call.R10FileSystemPatch install_dev true] ++ commitCalls h install_dev ++
          [Call.MakeDeviceReadOnly install_dev a.MakeDeviceReadOnly] ++
          (if (!(isFactoryInstall h) && firmware_update &&
              !(FirmwareUpdate h a install_dir (isUpdate h)).ret) = true
            then revertCalls h a install_dev else [])) ∧
    (∀ marked : Bool,
      (ChromeosChrootPostinst h { a with MakeDeviceReadOnly := marked } install_dir src_version
          firmware_update install_dev).ret =
        (ChromeosChrootPostinst h a install_dir src_version firmware_update
          install_dev).ret) := by
  refine ⟨?_, fun hp hc => ?_, fun marked =>
    ret_ignores_MakeDeviceReadOnly h a install_dir src_version firmware_update install_dev
      marked⟩
  · cases hc : commitOk h a src_version install_dev
    · rw [(run_of_not_commitOk h a install_dir src_version firmware_update install_dev hc).2.1]
      simp
    · have hro := readOnly_of_commitOk h a install_dir src_version firmware_update
        install_dev hc
      have hsub : ∀ x : Call, (isMakeReadOnly x &&
          (isPatchCall x || isStoreCall x || isMakeReadOnly x)) = isMakeReadOnly x := by
        intro x; cases x <;> rfl
      have hfil := congrArg (List.filter isMakeReadOnly) hro
      simp only [List.filter_filter, hsub] at hfil
      rw [hfil]
      by_cases hp : patchRequired h src_version = true
      · by_cases hr : (!(isFactoryInstall h) && firmware_update &&
            !(FirmwareUpdate h a install_dir (isUpdate h)).ret) = true <;>
          simp [hp, hr, commitCalls, revertCalls, List.filter_cons, isMakeReadOnly]
      · by_cases hr : (!(isFactoryInstall h) && firmware_update &&
            !(FirmwareUpdate h a install_dir (isUpdate h)).ret) = true <;>
          simp [hp, hr, commitCalls, revertCalls, List.filter_cons, isMakeReadOnly]
  · rw [readOnly_of_commitOk h a install_dir src_version firmware_update install_dev hc]
    simp [hp]

/-- C18 (amended), at a concrete input: an update from an old version on
partition 3 in which every step succeeds and `MakeDeviceReadOnly` fails. -/
theorem C18_read_only_after_patch_and_commit_witness :
    patchRequired (sampleHost [] 3 true) "0.9" = true ∧
    commitOk (sampleHost [] 3 true) { sampleAnswers 0 with MakeDeviceReadOnly := false } "0.9"
      "/dev/sda3" = true ∧
    (ChromeosChrootPostinst (sampleHost [] 3 true)
        { sampleAnswers 0 with MakeDeviceReadOnly := false } "/mnt" "0.9" false
        "/dev/sda3").trace.filter
          (fun c => isPatchCall c || isStoreCall c || isMakeReadOnly c) =
      [Call.R10FileSystemPatch "/dev/sda3" true, Call.Initialize "/dev/sda" 0,
       Call.SetHighestPriority 2 0, Call.SetSuccessful 2 false 0, Call.SetNumTriesLeft 2 6 0,
       Call.MakeDeviceReadOnly "/dev/sda3" false] ∧
    (ChromeosChrootPostinst (sampleHost [] 3 true)
        { sampleAnswers 0 with MakeDeviceReadOnly := false } "/mnt" "0.9" false
        "/dev/sda3").ret = true :=
  ⟨by decide, by decide,
   (C18_read_only_after_patch_and_commit (sampleHost [] 3 true)
      { sampleAnswers 0 with MakeDeviceReadOnly := false } "/mnt" "0.9" false "/dev/sda3").2.1
      (by decide) (by decide),
   by decide⟩

/-- C20, at two concrete inputs: an update whose updater returns 1 has the
revert calls, the same update with the updater returning 0 has none. -/
theorem C20_revert_only_after_updater_failure_witness :
    (updaterInvoked (sampleHost [] 3 false) (sampleAnswers 1) "4.5.6" true "/dev/sda3" = true ∧
      (sampleAnswers 1).system_updater ≠ 0 ∧
      noRevert (ChromeosChrootPostinst (sampleHost [] 3 false) (sampleAnswers 1) "/mnt" "4.5.6"
        true "/dev/sda3").trace = false) ∧
    (¬ (updaterInvoked (sampleHost [] 3 false) (sampleAnswers 0) "4.5.6" true "/dev/sda3" =
          true ∧ (sampleAnswers 0).system_updater ≠ 0) ∧
      (ChromeosChrootPostinst (sampleHost [] 3 false) (sampleAnswers 0) "/mnt" "4.5.6" true
          "/dev/sda3").trace.filter isRevertOnly = [] ∧
      ((ChromeosChrootPostinst (sampleHost [] 3 false) (sampleAnswers 0) "/mnt" "4.5.6" true
          "/dev/sda3").trace.filter isSetSuccessful).length ≤ 1) :=
  ⟨⟨by decide, by decide,
    (C20_revert_only_after_updater_failure (sampleHost [] 3 false) (sampleAnswers 1) "/mnt"
      "4.5.6" true "/dev/sda3").1.2 ⟨by decide, by decide⟩⟩,
   ⟨by decide,
    (C20_revert_only_after_updater_failure (sampleHost [] 3 false) (sampleAnswers 0) "/mnt"
      "4.5.6" true "/dev/sda3").2.2 (by decide)⟩⟩

end Postinst
